import Mathlib

/-!
Verification development for the rozetkapay Go client library.

The development shallowly embeds the library's data model and operations:

* JSON documents are modelled by the inductive `Jx` (parsed values, not byte
  strings); a raw HTTP body is modelled by `Body`, which distinguishes the
  zero-length body, a body that fails JSON parsing, and a body that parses
  to a `Jx` value.
* Go `float64` values are modelled by their IEEE 754 binary64 bit pattern
  (`F64`); the only operations the library's JSON layer performs on floats
  are the finiteness check (non-finite values make `encoding/json` fail)
  and the `omitempty` zero test, both defined on the bit pattern.
* `time.Time` fields are modelled by their RFC 3339 serialization
  (`GoTime`); the in-range check and calendar arithmetic of the Go `time`
  package are abstracted away, which is sound for the serialize/deserialize
  round trips studied here.
* `encoding/json` struct decoding is modelled exactly as Go performs it:
  iterate over the object's key/value pairs in order, updating the struct
  (starting from its zero value) field by field; unknown keys are ignored,
  `null` leaves a scalar field unchanged, and a type mismatch is an error.
  Keys are matched by their exact tag spelling (Go additionally accepts
  case-insensitive matches, which no code path of this library relies on),
  and objects are assumed to bind each key at most once, as all encoders
  here produce.  Go encodes map values with sorted keys; maps are therefore
  represented as key-sorted association lists.
* `fmt.Errorf` applied to a single format string and no arguments is
  modelled by `fmtErrorf`, covering format strings without `*` width/
  precision markers and without explicit argument indexes: literal text is
  copied, `%%` prints `%`, a directive with a missing operand prints
  `%!v(MISSING)` for its verb `v` (flags, width and precision are dropped,
  as in Go), and a trailing `%` prints `%!(NOVERB)`.
* Basic authentication tokens use a full model of standard base64
  (RFC 4648) over the UTF-8 bytes of the credential string.
* `Client.Send` is modelled by `Send`, a pure function of the debug flag,
  the Basic-Auth token, the request, the transport (the injected HTTP
  client, a function from requests to `DoResult`), and the optional
  destination decoder.  It returns the call outcome together with the list
  of emitted log lines.  The repository contains two near-identical copies
  of the client (`client.go` and an unnamed duplicate); their `Send`,
  `NewRequest` and `GetPaymentCallbackFromBytes` bodies are line-for-line
  the same modulo receiver naming, so a single model covers both.
-/

/-- IEEE 754 binary64 bit pattern standing for a Go `float64`.  Bit 63 is the
sign, bits 62–52 the exponent, bits 51–0 the mantissa. -/
structure F64 where
  bits : Nat
  deriving DecidableEq, Repr

/-- Go `v == 0` for a float64: the bit pattern of `+0.0` or `-0.0`.  This is
the emptiness test `encoding/json` uses for `omitempty` float fields. -/
def F64.isZero (x : F64) : Bool :=
  x.bits == 0 || x.bits == 2 ^ 63

/-- Finiteness of a binary64 value: the exponent field is not all ones.
`encoding/json` refuses to marshal non-finite floats. -/
def F64.isFinite (x : F64) : Bool :=
  (x.bits / 2 ^ 52) % 2 ^ 11 != 2047

/-- JSON document, as produced by parsing a byte body.  Numbers carry the
`float64` bit pattern Go's decoder would produce for them. -/
inductive Jx where
  | null
  | bool (b : Bool)
  | num (x : F64)
  | str (s : String)
  | arr (elems : List Jx)
  | obj (fields : List (String × Jx))

/-- A `time.Time` value, represented by its RFC 3339 JSON serialization. -/
structure GoTime where
  rfc3339 : String
  deriving DecidableEq, Repr

/-- Decode a JSON value into a Go `string` destination holding `cur`:
a JSON string replaces it, `null` is a no-op, anything else is a type error. -/
def asStr : Jx → String → Except Unit String
  | .str s, _ => .ok s
  | .null, cur => .ok cur
  | _, _ => .error ()

/-- Decode a JSON value into a Go `bool` destination. -/
def asBool : Jx → Bool → Except Unit Bool
  | .bool b, _ => .ok b
  | .null, cur => .ok cur
  | _, _ => .error ()

/-- Decode a JSON value into a Go `float64` destination. -/
def asNum : Jx → F64 → Except Unit F64
  | .num x, _ => .ok x
  | .null, cur => .ok cur
  | _, _ => .error ()

/-- Decode a JSON value into a Go `time.Time` destination. -/
def asTime : Jx → GoTime → Except Unit GoTime
  | .str s, _ => .ok ⟨s⟩
  | .null, cur => .ok cur
  | _, _ => .error ()

/-- Go's object-decoding loop for a struct destination: fold the object's
key/value pairs over the field dispatcher `applyF`, starting from the
current (zero or partially filled) struct value. -/
def decObj {α : Type} (applyF : α → String × Jx → Except Unit α) :
    α → List (String × Jx) → Except Unit α
  | acc, [] => .ok acc
  | acc, kv :: rest => do decObj applyF (← applyF acc kv) rest

/-- Decode a JSON value into a struct-typed destination whose current value
is `cur`: an object is decoded into `cur` field by field, `null` is a no-op,
anything else is a type error. -/
def asObj {α : Type} (applyF : α → String × Jx → Except Unit α)
    (j : Jx) (cur : α) : Except Unit α :=
  match j with
  | .null => .ok cur
  | .obj fs => decObj applyF cur fs
  | _ => .error ()

/-- Go's array-decoding loop: decode each element of a JSON array in
order, failing on the first element error. -/
def decodeList {α : Type} (dec : Jx → Except Unit α) :
    List Jx → Except Unit (List α)
  | [] => .ok []
  | j :: rest => do .ok ((← dec j) :: (← decodeList dec rest))

/-- Go's map-decoding loop for a `map[string]string`: every value must be a
string (`null` stores the zero value). -/
def decodeProps : List (String × Jx) → Except Unit (List (String × String))
  | [] => .ok []
  | kv :: rest => do .ok ((kv.1, ← asStr kv.2 "") :: (← decodeProps rest))

/-- Emit a string struct field tagged `omitempty`: skipped when empty. -/
def oStr (k v : String) (rest : List (String × Jx)) : List (String × Jx) :=
  if v = "" then rest else (k, Jx.str v) :: rest

/-- Emit a bool struct field tagged `omitempty`: skipped when `false`. -/
def oBool (k : String) (b : Bool) (rest : List (String × Jx)) :
    List (String × Jx) :=
  if b then (k, Jx.bool b) :: rest else rest

/-- Emit a float64 struct field tagged `omitempty`: skipped when `± 0`. -/
def oNum (k : String) (x : F64) (rest : List (String × Jx)) :
    List (String × Jx) :=
  if x.isZero then rest else (k, Jx.num x) :: rest

/-- Emit a slice struct field tagged `omitempty`: skipped when empty. -/
def oArr (k : String) (xs : List Jx) (rest : List (String × Jx)) :
    List (String × Jx) :=
  if xs.isEmpty then rest else (k, Jx.arr xs) :: rest

/-- Emit a pointer struct field tagged `omitempty`: skipped when nil. -/
def oOpt (k : String) (v : Option Jx) (rest : List (String × Jx)) :
    List (String × Jx) :=
  match v with
  | none => rest
  | some j => (k, j) :: rest

/-- Emit a `map[string]string` struct field tagged `omitempty`: skipped when
nil or empty, otherwise an object of its (key-sorted) entries. -/
def oProps (k : String) (ps : List (String × String))
    (rest : List (String × Jx)) : List (String × Jx) :=
  if ps.isEmpty then rest
  else (k, Jx.obj (ps.map fun kv => (kv.1, Jx.str kv.2))) :: rest

/-- Emit a non-`omitempty` pointer-to-struct field: `null` when nil. -/
def encOptObj {α : Type} (encFields : α → List (String × Jx)) :
    Option α → Jx
  | none => .null
  | some a => .obj (encFields a)

/-- Look up a key in an object's field list (first occurrence). -/
def lookupPairs : List (String × Jx) → String → Option Jx
  | [], _ => none
  | (k, v) :: rest, key => if k = key then some v else lookupPairs rest key

/-- Look up a key at the top level of a JSON document. -/
def lookupKey (j : Jx) (k : String) : Option Jx :=
  match j with
  | .obj fs => lookupPairs fs k
  | _ => none

/-- Characters Go's `fmt` scanner treats as flags, width or precision inside
a `%` directive (excluding `*` and `[`, which this model does not cover). -/
def fmtIsFlag (c : Char) : Bool :=
  c = '+' || c = '-' || c = '#' || c = ' ' || c = '.' || c.isDigit

/-- Core of the `fmt.Errorf` model.  The boolean is true while scanning the
flags of a `%` directive. -/
def fmtAux : Bool → List Char → List Char
  | false, [] => []
  | true, [] => "%!(NOVERB)".data
  | false, '%' :: rest => fmtAux true rest
  | false, c :: rest => c :: fmtAux false rest
  | true, c :: rest =>
    if fmtIsFlag c then fmtAux true rest
    else if c = '%' then '%' :: fmtAux false rest
    else "%!".data ++ [c] ++ "(MISSING)".data ++ fmtAux false rest

/-- `fmt.Errorf(s)` with no variadic arguments: the message of the returned
error is the format string rendered with zero operands. -/
def fmtErrorf (s : String) : String :=
  ⟨fmtAux false s.data⟩

/-- UTF-8 encoding of a Unicode scalar value. -/
def utf8EncodeCharBytes (n : Nat) : List Nat :=
  if n < 0x80 then [n]
  else if n < 0x800 then [0xC0 + n / 0x40, 0x80 + n % 0x40]
  else if n < 0x10000 then
    [0xE0 + n / 0x1000, 0x80 + n / 0x40 % 0x40, 0x80 + n % 0x40]
  else
    [0xF0 + n / 0x40000, 0x80 + n / 0x1000 % 0x40,
     0x80 + n / 0x40 % 0x40, 0x80 + n % 0x40]

/-- UTF-8 bytes of a string (Go's `[]byte(s)`). -/
def utf8Bytes (s : String) : List Nat :=
  s.data.foldr (fun c acc => utf8EncodeCharBytes c.toNat ++ acc) []

/-- The standard base64 alphabet of RFC 4648. -/
def b64Alphabet : List Char :=
  "ABCDEFGHIJKLMNOPQRSTUVWXYZabcdefghijklmnopqrstuvwxyz0123456789+/".data

/-- Character for a six-bit group. -/
def b64Char (n : Nat) : Char := b64Alphabet.getD n 'A'

/-- Standard base64 encoding with padding (`base64.StdEncoding`). -/
def base64Encode : List Nat → String
  | [] => ""
  | [a] => ⟨[b64Char (a / 4), b64Char (a % 4 * 16), '=', '=']⟩
  | [a, b] =>
    ⟨[b64Char (a / 4), b64Char (a % 4 * 16 + b / 16), b64Char (b % 16 * 4), '=']⟩
  | a :: b :: c :: rest =>
    (⟨[b64Char (a / 4), b64Char (a % 4 * 16 + b / 16),
       b64Char (b % 16 * 4 + c / 64), b64Char (c % 64)]⟩ : String)
      ++ base64Encode rest

/-- `API_URL` constant of `config.go`. -/
def API_URL : String := "https://api.rozetkapay.com/api/"

/-- `DevLogin` constant of `config.go`. -/
def DevLogin : String := "a6a29002-dc68-4918-bc5d-51a6094b14a8"

/-- `DevPassword` constant of `config.go`. -/
def DevPassword : String := "XChz3J8qrr"

/-- The `Config` struct of `config.go` (field order as declared). -/
structure Config where
  API : String
  BasicAuth : String
  ResultURL : String
  CallbackURL : String
  Debug : Bool
  deriving DecidableEq, Repr

/-- `NewConfig` of `config.go`: Basic-Auth token from base64 of
`login + ":" + password`, fixed production API URL; other fields zero. -/
def NewConfig (login password : String) : Config :=
  { BasicAuth := base64Encode (utf8Bytes (login ++ ":" ++ password))
    API := API_URL
    ResultURL := ""
    CallbackURL := ""
    Debug := false }

/-- `NewDevelopmentConfig` of `config.go`: sandbox credentials, debug on. -/
def NewDevelopmentConfig : Config :=
  { BasicAuth := base64Encode (utf8Bytes (DevLogin ++ ":" ++ DevPassword))
    API := API_URL
    ResultURL := ""
    CallbackURL := ""
    Debug := true }

/-- `Config.SetCallbackURL` (builder-style setter). -/
def Config.SetCallbackURL (c : Config) (callbackURL : String) : Config :=
  { c with CallbackURL := callbackURL }

/-- `Config.SetResultURL` (builder-style setter). -/
def Config.SetResultURL (c : Config) (resultURL : String) : Config :=
  { c with ResultURL := resultURL }

/-- `Config.SetDebugMode` (builder-style setter). -/
def Config.SetDebugMode (c : Config) (debug : Bool) : Config :=
  { c with Debug := debug }

/-- The `ErrorResponse` struct (gateway error body).  The Go field `Type`
is spelled `type` here because `Type` is reserved in Lean; its JSON tag is
`type` either way.  `Code` has Go type `PaymentStatusCode`, an open
string-backed type, so it is a plain string. -/
structure ErrorResponse where
  Code : String
  Message : String
  Param : String
  PaymentID : String
  type : String
  deriving DecidableEq, Repr

/-- Zero value of `ErrorResponse`. -/
def defErrorResponse : ErrorResponse := ⟨"", "", "", "", ""⟩

/-- Field dispatcher for decoding an `ErrorResponse` object. -/
def applyER (acc : ErrorResponse) (kv : String × Jx) :
    Except Unit ErrorResponse :=
  if kv.1 = "code" then do .ok { acc with Code := ← asStr kv.2 acc.Code }
  else if kv.1 = "message" then do .ok { acc with Message := ← asStr kv.2 acc.Message }
  else if kv.1 = "param" then do .ok { acc with Param := ← asStr kv.2 acc.Param }
  else if kv.1 = "payment_id" then do .ok { acc with PaymentID := ← asStr kv.2 acc.PaymentID }
  else if kv.1 = "type" then do .ok { acc with type := ← asStr kv.2 acc.type }
  else .ok acc

/-- `json.Unmarshal(body, &errResp)` where `errResp` is a nil
`*ErrorResponse`: JSON `null` leaves the pointer nil, an object allocates
and fills a struct, anything else is a type error. -/
def decodeErrorResponsePtr : Jx → Except Unit (Option ErrorResponse)
  | .null => .ok none
  | .obj fs => do .ok (some (← decObj applyER defErrorResponse fs))
  | _ => .error ()

/-- JSON serialization of an `ErrorResponse` (tag order as declared). -/
def encodeErrorResponse (e : ErrorResponse) : Jx :=
  .obj [("code", .str e.Code), ("message", .str e.Message),
        ("param", .str e.Param), ("payment_id", .str e.PaymentID),
        ("type", .str e.type)]

/-- Go errors observable from the client.  `transport`, `readFailed` and
`unmarshalError` stand for the respective propagated library errors (their
message texts vary and are abstracted); `responseIsEmpty` is the package's
`ErrResponseIsEmpty` sentinel; `code s` is the error built by
`ErrorResponse.ErrorCode` from the gateway status-code string `s`. -/
inductive GoError where
  | transport
  | readFailed
  | responseIsEmpty
  | unmarshalError
  | code (s : String)
  deriving DecidableEq, Repr

/-- The `ErrResponseIsEmpty` sentinel (`errors.New("response is empty")`). -/
def ErrResponseIsEmpty : GoError := .responseIsEmpty

/-- The string representation (`Error()`) of each modelled error.  For a
gateway error the source builds the error with `fmt.Errorf(string(e.Code))`,
so its message is the code rendered as a format string with no operands. -/
def GoError.message : GoError → String
  | .transport => "transport error"
  | .readFailed => "read error"
  | .responseIsEmpty => "response is empty"
  | .unmarshalError => "json unmarshal error"
  | .code s => fmtErrorf s

/-- `ErrorResponse.ErrorCode`: `fmt.Errorf(string(e.Code))`. -/
def ErrorResponse.ErrorCode (e : ErrorResponse) : GoError :=
  .code e.Code

/-- An HTTP response body as read into memory: zero length, bytes that do
not parse as JSON, or bytes parsing to a JSON document. -/
inductive Body where
  | empty
  | malformed
  | json (j : Jx)

/-- Outcome of `httpClient.Do` followed by `io.ReadAll`: a transport
failure, a body-read failure, or a status code with a fully read body. -/
inductive DoResult where
  | failure
  | readFailure
  | response (status : Int) (body : Body)

/-- An `http.Request` as far as the client manipulates it.  URL parsing is
abstracted: the URL is kept verbatim and the query parameters added by
`NewRequest` are kept as a list. -/
structure HttpRequest where
  method : String
  url : String
  query : List (String × String)
  header : List (String × List String)
  body : Option Jx

/-- A log line emitted by `Send` via `log.Printf`.  `debugRequest` and
`debugResponse` are the two debug traces; `errorLine` is the error trace of
the non-2xx branch (which prints the error's type, code, message and
payment id — the type twice in the source's format string).  The body byte
count printed by `debugResponse` is abstracted away. -/
inductive LogLine where
  | debugRequest (method url : String)
  | errorLine (typ code message paymentID : String)
  | debugResponse (method url : String) (status : Int)
  deriving DecidableEq, Repr

/-- Whether a log line is the (unconditional) error trace. -/
def LogLine.isError : LogLine → Bool
  | .errorLine _ _ _ _ => true
  | _ => false

/-- Result of a `Send` call: success with the decoded destination (`none`
when the destination was nil), a returned error, or a nil-pointer panic
(which the source hits when a non-2xx body is the JSON document `null`,
leaving `errResp` nil before `errResp.Type` is read). -/
inductive SendResult (α : Type) where
  | ok (dest : Option α)
  | fail (e : GoError)
  | panic
  deriving DecidableEq, Repr

/-- First step of `Client.Send`: the request's header map is replaced
outright by exactly two entries, spelled as in the source. -/
def sendHeaders (basicAuth : String) (req : HttpRequest) : HttpRequest :=
  { req with
    header := [("Content-type", ["application/json"]),
               ("Authorization", ["Basic " ++ basicAuth])] }

/-- `Client.Send`, as a function of the config's debug flag and Basic-Auth
token, the request, the injected transport, and the optional destination
decoder.  Returns the call outcome and the emitted log lines in order. -/
def Send {α : Type} (debug : Bool) (basicAuth : String) (req : HttpRequest)
    (doReq : HttpRequest → DoResult) (v : Option (Jx → Except Unit α)) :
    SendResult α × List LogLine :=
  let req1 := sendHeaders basicAuth req
  let preLogs := if debug then [LogLine.debugRequest req1.method req1.url] else []
  match doReq req1 with
  | .failure => (.fail .transport, preLogs)
  | .readFailure => (.fail .readFailed, preLogs)
  | .response status body =>
    if status < 200 || status > 299 then
      match body with
      | .empty => (.fail ErrResponseIsEmpty, preLogs)
      | .malformed => (.fail .unmarshalError, preLogs)
      | .json j =>
        match decodeErrorResponsePtr j with
        | .error _ => (.fail .unmarshalError, preLogs)
        | .ok none => (.panic, preLogs)
        | .ok (some er) =>
          (.fail er.ErrorCode,
           preLogs ++ [LogLine.errorLine er.type er.Code er.Message er.PaymentID])
    else
      match v with
      | none => (.ok none, preLogs)
      | some dec =>
        let postLogs :=
          if debug then [LogLine.debugResponse req1.method req1.url status] else []
        match body with
        | .json j =>
          match dec j with
          | .ok a => (.ok (some a), preLogs ++ postLogs)
          | .error _ => (.fail .unmarshalError, preLogs ++ postLogs)
        | _ => (.fail .unmarshalError, preLogs ++ postLogs)

/-- `Client.NewRequest`: marshal the payload (when non-nil) into the body,
propagating a marshal error, and attach the query parameters.  The encoder
for the payload's type is passed explicitly; URL parsing never fails in the
model. -/
def NewRequest {α : Type} (enc : α → Except Unit Jx) (method url : String)
    (payload : Option α) (query : List (String × String)) :
    Except Unit HttpRequest := do
  let body ← match payload with
    | none => Except.ok none
    | some p => do Except.ok (some (← enc p))
  .ok { method := method, url := url, query := query, header := [], body := body }

/-- The `BrowserFingerprint` struct; every field is an `omitempty` string. -/
structure BrowserFingerprint where
  BrowserAcceptHeader : String
  BrowserColorDepth : String
  BrowserIPAddress : String
  BrowserJavaEnabled : String
  BrowserLanguage : String
  BrowserScreenHeight : String
  BrowserTimeZone : String
  BrowserTimeZoneOffset : String
  BrowserUserAgent : String
  deriving DecidableEq, Repr

/-- Zero value of `BrowserFingerprint`. -/
def defBF : BrowserFingerprint := ⟨"", "", "", "", "", "", "", "", ""⟩

/-- The `ApplePay` struct (plain tags, no `omitempty`). -/
structure ApplePay where
  BrowserFingerprint : BrowserFingerprint
  Token : String
  Use3DSFlow : Bool
  deriving DecidableEq, Repr

/-- Zero value of `ApplePay`. -/
def defApplePay : ApplePay := ⟨defBF, "", false⟩

/-- The `CCToken` struct (plain tags, no `omitempty`). -/
structure CCToken where
  BrowserFingerprint : BrowserFingerprint
  Token : String
  Use3DSFlow : Bool
  deriving DecidableEq, Repr

/-- Zero value of `CCToken`. -/
def defCCToken : CCToken := ⟨defBF, "", false⟩

/-- The `GooglePay` struct (plain tags, no `omitempty`). -/
structure GooglePay where
  BrowserFingerprint : BrowserFingerprint
  Token : String
  Use3DSFlow : Bool
  deriving DecidableEq, Repr

/-- Zero value of `GooglePay`. -/
def defGooglePay : GooglePay := ⟨defBF, "", false⟩

/-- The `Wallet` struct (plain tags, no `omitempty`). -/
structure Wallet where
  BrowserFingerprint : BrowserFingerprint
  OptionID : String
  Use3DSFlow : Bool
  deriving DecidableEq, Repr

/-- Zero value of `Wallet`. -/
def defWallet : Wallet := ⟨defBF, "", false⟩

/-- The `PaymentMethod` struct.  The four struct-typed fields carry
`omitempty`, which Go ignores for struct types (a struct is never empty),
so they are always emitted; only `type` (`Type` in Go) is a string and is
actually omitted when empty. -/
structure PaymentMethod where
  ApplePay : ApplePay
  CCToken : CCToken
  GooglePay : GooglePay
  type : String
  Wallet : Wallet
  deriving DecidableEq, Repr

/-- Zero value of `PaymentMethod`. -/
def defPaymentMethod : PaymentMethod :=
  ⟨defApplePay, defCCToken, defGooglePay, "", defWallet⟩

/-- The `Product` struct; every field is tagged `omitempty`. -/
structure Product where
  Category : String
  Currency : String
  Description : String
  ID : String
  Image : String
  Name : String
  NetAmount : F64
  Quantity : String
  URL : String
  VATAmount : F64
  deriving DecidableEq, Repr

/-- Zero value of `Product`. -/
def defProduct : Product := ⟨"", "", "", "", "", "", ⟨0⟩, "", "", ⟨0⟩⟩

/-- The `Recipient` struct.  All string fields are `omitempty`; the
`payment_method` field is a struct, so its `omitempty` is a no-op. -/
structure Recipient where
  Address : String
  City : String
  Country : String
  Email : String
  ExternalID : String
  FirstName : String
  LastName : String
  Patronym : String
  PaymentMethod : PaymentMethod
  Phone : String
  PostalCode : String
  deriving DecidableEq, Repr

/-- Zero value of `Recipient`. -/
def defRecipient : Recipient :=
  ⟨"", "", "", "", "", "", "", "", defPaymentMethod, "", ""⟩

/-- The `CustomerData` struct.  All string fields are `omitempty`; the
`payment_method` field is a struct, so its `omitempty` is a no-op.
`ColorMode` and `Locale` have open string-backed Go types. -/
structure CustomerData where
  ColorMode : String
  Locale : String
  AccountNumber : String
  IPAddress : String
  Address : String
  City : String
  Country : String
  Email : String
  ExternalID : String
  FirstName : String
  LastName : String
  Patronym : String
  PaymentMethod : PaymentMethod
  Phone : String
  PostalCode : String
  deriving DecidableEq, Repr

/-- Zero value of `CustomerData`. -/
def defCustomerData : CustomerData :=
  ⟨"", "", "", "", "", "", "", "", "", "", "", "", defPaymentMethod, "", ""⟩

/-- The `CreatePaymentSchema` struct.  `Customer` is a plain-tagged pointer
(`null` when nil); `Products`, `Recipient` and `Properties` are `omitempty`;
`Mode` has the open string-backed type `PaymentMode`.  A Go nil slice and an
empty slice are both "unset" (both are omitted and both decode from an
absent key), so `Products` is a plain list; `Properties` is a
`map[string]string`, represented as a key-sorted association list. -/
structure CreatePaymentSchema where
  Amount : F64
  Currency : String
  ExternalID : String
  Mode : String
  CallbackURL : String
  ResultURL : String
  Confirm : Bool
  Description : String
  Payload : String
  Customer : Option CustomerData
  Products : List Product
  Recipient : Option Recipient
  Properties : List (String × String)
  deriving DecidableEq, Repr

/-- Zero value of `CreatePaymentSchema`. -/
def defCreatePaymentSchema : CreatePaymentSchema :=
  ⟨⟨0⟩, "", "", "", "", "", false, "", "", none, [], none, []⟩

/-- The `ConfirmPaymentSchema` struct. -/
structure ConfirmPaymentSchema where
  ExternalID : String
  Amount : F64
  CallbackURL : String
  Currency : String
  Payload : String
  deriving DecidableEq, Repr

/-- Zero value of `ConfirmPaymentSchema`. -/
def defConfirmPaymentSchema : ConfirmPaymentSchema := ⟨"", ⟨0⟩, "", "", ""⟩

/-- The `CancelPaymentSchema` struct. -/
structure CancelPaymentSchema where
  ExternalID : String
  Amount : F64
  CallbackURL : String
  Currency : String
  Payload : String
  deriving DecidableEq, Repr

/-- Zero value of `CancelPaymentSchema`. -/
def defCancelPaymentSchema : CancelPaymentSchema := ⟨"", ⟨0⟩, "", "", ""⟩

/-- The `RefundPaymentSchema` struct. -/
structure RefundPaymentSchema where
  ExternalID : String
  Amount : F64
  CallbackURL : String
  Currency : String
  Payload : String
  deriving DecidableEq, Repr

/-- Zero value of `RefundPaymentSchema`. -/
def defRefundPaymentSchema : RefundPaymentSchema := ⟨"", ⟨0⟩, "", "", ""⟩

/-- The `PaymentCallbackResendSchema` struct (plain tags).  `Operation` has
the open string-backed type `CallbackResendOperation`. -/
structure PaymentCallbackResendSchema where
  ExternalID : String
  Operation : String
  deriving DecidableEq, Repr

/-- Zero value of `PaymentCallbackResendSchema`. -/
def defPaymentCallbackResendSchema : PaymentCallbackResendSchema := ⟨"", ""⟩

/-- The `AddWalletCustomerSchema` struct (plain tags). -/
structure AddWalletCustomerSchema where
  CallbackURL : String
  ResultURL : String
  PaymentMethod : PaymentMethod
  deriving DecidableEq, Repr

/-- Zero value of `AddWalletCustomerSchema`. -/
def defAddWalletCustomerSchema : AddWalletCustomerSchema :=
  ⟨"", "", defPaymentMethod⟩

/-- The `DeleteWalletCustomerSchema` struct (plain tags); `type` (`Type` in
Go) has the open string-backed type `PaymentMethodType`. -/
structure DeleteWalletCustomerSchema where
  OptionID : String
  type : String
  deriving DecidableEq, Repr

/-- Zero value of `DeleteWalletCustomerSchema`. -/
def defDeleteWalletCustomerSchema : DeleteWalletCustomerSchema := ⟨"", ""⟩

/-- The `PaymentUserAction` struct; the Go field `Type` is spelled `type`. -/
structure PaymentUserAction where
  type : String
  Value : String
  deriving DecidableEq, Repr

/-- Zero value of `PaymentUserAction`. -/
def defPaymentUserAction : PaymentUserAction := ⟨"", ""⟩

/-- The `PaymentResponseDetailsProperties` struct. -/
structure PaymentResponseDetailsProperties where
  Property1 : String
  Property2 : String
  deriving DecidableEq, Repr

/-- Zero value of `PaymentResponseDetailsProperties`. -/
def defDetailsProperties : PaymentResponseDetailsProperties := ⟨"", ""⟩

/-- The `PaymentResponseDetailsFee` struct. -/
structure PaymentResponseDetailsFee where
  Amount : String
  Currency : String
  deriving DecidableEq, Repr

/-- Zero value of `PaymentResponseDetailsFee`. -/
def defDetailsFee : PaymentResponseDetailsFee := ⟨"", ""⟩

/-- Zero value of `GoTime`: the RFC 3339 form of Go's zero `time.Time`. -/
def defGoTime : GoTime := ⟨"0001-01-01T00:00:00Z"⟩

/-- The `PaymentResponseDetails` struct (plain tags; `Status` and
`StatusCode` have open string-backed types). -/
structure PaymentResponseDetails where
  Amount : String
  BillingOrderID : String
  CreatedAt : GoTime
  Currency : String
  Description : String
  GatewayOrderID : String
  Payload : String
  PaymentID : String
  ProcessedAt : GoTime
  Properties : PaymentResponseDetailsProperties
  RRN : String
  Status : String
  StatusCode : String
  StatusDescription : String
  TransactionID : String
  AuthCode : String
  Fee : PaymentResponseDetailsFee
  TerminalName : String
  deriving DecidableEq, Repr

/-- Zero value of `PaymentResponseDetails`. -/
def defDetails : PaymentResponseDetails :=
  ⟨"", "", defGoTime, "", "", "", "", "", defGoTime, defDetailsProperties,
   "", "", "", "", "", "", defDetailsFee, ""⟩

/-- The `PaymentResponseCustomer` struct (plain tags). -/
structure PaymentResponseCustomer where
  BrowserUserAgent : String
  Email : String
  ExternalID : String
  FirstName : String
  IPAddress : String
  LastName : String
  Patronym : String
  Phone : String
  deriving DecidableEq, Repr

/-- Zero value of `PaymentResponseCustomer`. -/
def defRespCustomer : PaymentResponseCustomer :=
  ⟨"", "", "", "", "", "", "", ""⟩

/-- The `PaymentResponse` struct (plain tags throughout). -/
structure PaymentResponse where
  ID : String
  Action : PaymentUserAction
  ActionRequired : Bool
  Details : PaymentResponseDetails
  ExternalID : String
  IsSuccess : Bool
  ReceiptURL : String
  PaymentMethod : PaymentMethod
  Customer : PaymentResponseCustomer
  deriving DecidableEq, Repr

/-- Zero value of `PaymentResponse`. -/
def defPaymentResponse : PaymentResponse :=
  ⟨"", defPaymentUserAction, false, defDetails, "", false, "",
   defPaymentMethod, defRespCustomer⟩

/-- Serialized field list of a `BrowserFingerprint` (declaration order). -/
def encBFFields (x : BrowserFingerprint) : List (String × Jx) :=
  oStr "browser_accept_header" x.BrowserAcceptHeader <|
  oStr "browser_color_depth" x.BrowserColorDepth <|
  oStr "browser_ip_address" x.BrowserIPAddress <|
  oStr "browser_java_enabled" x.BrowserJavaEnabled <|
  oStr "browser_language" x.BrowserLanguage <|
  oStr "browser_screen_height" x.BrowserScreenHeight <|
  oStr "browser_time_zone" x.BrowserTimeZone <|
  oStr "browser_time_zone_offset" x.BrowserTimeZoneOffset <|
  oStr "browser_user_agent" x.BrowserUserAgent []

/-- Field dispatcher for decoding a `BrowserFingerprint` object. -/
def applyBF (acc : BrowserFingerprint) (kv : String × Jx) :
    Except Unit BrowserFingerprint :=
  if kv.1 = "browser_accept_header" then do
    .ok { acc with BrowserAcceptHeader := ← asStr kv.2 acc.BrowserAcceptHeader }
  else if kv.1 = "browser_color_depth" then do
    .ok { acc with BrowserColorDepth := ← asStr kv.2 acc.BrowserColorDepth }
  else if kv.1 = "browser_ip_address" then do
    .ok { acc with BrowserIPAddress := ← asStr kv.2 acc.BrowserIPAddress }
  else if kv.1 = "browser_java_enabled" then do
    .ok { acc with BrowserJavaEnabled := ← asStr kv.2 acc.BrowserJavaEnabled }
  else if kv.1 = "browser_language" then do
    .ok { acc with BrowserLanguage := ← asStr kv.2 acc.BrowserLanguage }
  else if kv.1 = "browser_screen_height" then do
    .ok { acc with BrowserScreenHeight := ← asStr kv.2 acc.BrowserScreenHeight }
  else if kv.1 = "browser_time_zone" then do
    .ok { acc with BrowserTimeZone := ← asStr kv.2 acc.BrowserTimeZone }
  else if kv.1 = "browser_time_zone_offset" then do
    .ok { acc with BrowserTimeZoneOffset := ← asStr kv.2 acc.BrowserTimeZoneOffset }
  else if kv.1 = "browser_user_agent" then do
    .ok { acc with BrowserUserAgent := ← asStr kv.2 acc.BrowserUserAgent }
  else .ok acc

/-- Serialized field list of an `ApplePay` value. -/
def encApplePayFields (x : ApplePay) : List (String × Jx) :=
  [("browser_fingerprint", .obj (encBFFields x.BrowserFingerprint)),
   ("token", .str x.Token),
   ("use_3ds_flow", .bool x.Use3DSFlow)]

/-- Field dispatcher for decoding an `ApplePay` object. -/
def applyApplePay (acc : ApplePay) (kv : String × Jx) :
    Except Unit ApplePay :=
  if kv.1 = "browser_fingerprint" then do
    .ok { acc with BrowserFingerprint := ← asObj applyBF kv.2 acc.BrowserFingerprint }
  else if kv.1 = "token" then do .ok { acc with Token := ← asStr kv.2 acc.Token }
  else if kv.1 = "use_3ds_flow" then do
    .ok { acc with Use3DSFlow := ← asBool kv.2 acc.Use3DSFlow }
  else .ok acc

/-- Serialized field list of a `CCToken` value. -/
def encCCTokenFields (x : CCToken) : List (String × Jx) :=
  [("browser_fingerprint", .obj (encBFFields x.BrowserFingerprint)),
   ("token", .str x.Token),
   ("use_3ds_flow", .bool x.Use3DSFlow)]

/-- Field dispatcher for decoding a `CCToken` object. -/
def applyCCToken (acc : CCToken) (kv : String × Jx) :
    Except Unit CCToken :=
  if kv.1 = "browser_fingerprint" then do
    .ok { acc with BrowserFingerprint := ← asObj applyBF kv.2 acc.BrowserFingerprint }
  else if kv.1 = "token" then do .ok { acc with Token := ← asStr kv.2 acc.Token }
  else if kv.1 = "use_3ds_flow" then do
    .ok { acc with Use3DSFlow := ← asBool kv.2 acc.Use3DSFlow }
  else .ok acc

/-- Serialized field list of a `GooglePay` value. -/
def encGooglePayFields (x : GooglePay) : List (String × Jx) :=
  [("browser_fingerprint", .obj (encBFFields x.BrowserFingerprint)),
   ("token", .str x.Token),
   ("use_3ds_flow", .bool x.Use3DSFlow)]

/-- Field dispatcher for decoding a `GooglePay` object. -/
def applyGooglePay (acc : GooglePay) (kv : String × Jx) :
    Except Unit GooglePay :=
  if kv.1 = "browser_fingerprint" then do
    .ok { acc with BrowserFingerprint := ← asObj applyBF kv.2 acc.BrowserFingerprint }
  else if kv.1 = "token" then do .ok { acc with Token := ← asStr kv.2 acc.Token }
  else if kv.1 = "use_3ds_flow" then do
    .ok { acc with Use3DSFlow := ← asBool kv.2 acc.Use3DSFlow }
  else .ok acc

/-- Serialized field list of a `Wallet` value. -/
def encWalletFields (x : Wallet) : List (String × Jx) :=
  [("browser_fingerprint", .obj (encBFFields x.BrowserFingerprint)),
   ("option_id", .str x.OptionID),
   ("use_3ds_flow", .bool x.Use3DSFlow)]

/-- Field dispatcher for decoding a `Wallet` object. -/
def applyWallet (acc : Wallet) (kv : String × Jx) :
    Except Unit Wallet :=
  if kv.1 = "browser_fingerprint" then do
    .ok { acc with BrowserFingerprint := ← asObj applyBF kv.2 acc.BrowserFingerprint }
  else if kv.1 = "option_id" then do .ok { acc with OptionID := ← asStr kv.2 acc.OptionID }
  else if kv.1 = "use_3ds_flow" then do
    .ok { acc with Use3DSFlow := ← asBool kv.2 acc.Use3DSFlow }
  else .ok acc

/-- Serialized field list of a `PaymentMethod` value: the struct fields are
always present, `type` only when non-empty. -/
def encPaymentMethodFields (x : PaymentMethod) : List (String × Jx) :=
  ("apple_pay", .obj (encApplePayFields x.ApplePay)) ::
  ("cc_token", .obj (encCCTokenFields x.CCToken)) ::
  ("google_pay", .obj (encGooglePayFields x.GooglePay)) ::
  oStr "type" x.type [("wallet", .obj (encWalletFields x.Wallet))]

/-- Field dispatcher for decoding a `PaymentMethod` object. -/
def applyPaymentMethod (acc : PaymentMethod) (kv : String × Jx) :
    Except Unit PaymentMethod :=
  if kv.1 = "apple_pay" then do
    .ok { acc with ApplePay := ← asObj applyApplePay kv.2 acc.ApplePay }
  else if kv.1 = "cc_token" then do
    .ok { acc with CCToken := ← asObj applyCCToken kv.2 acc.CCToken }
  else if kv.1 = "google_pay" then do
    .ok { acc with GooglePay := ← asObj applyGooglePay kv.2 acc.GooglePay }
  else if kv.1 = "type" then do .ok { acc with type := ← asStr kv.2 acc.type }
  else if kv.1 = "wallet" then do
    .ok { acc with Wallet := ← asObj applyWallet kv.2 acc.Wallet }
  else .ok acc

/-- Serialized field list of a `Product` (declaration order). -/
def encProductFields (p : Product) : List (String × Jx) :=
  oStr "category" p.Category <|
  oStr "currency" p.Currency <|
  oStr "description" p.Description <|
  oStr "id" p.ID <|
  oStr "image" p.Image <|
  oStr "name" p.Name <|
  oNum "net_amount" p.NetAmount <|
  oStr "quantity" p.Quantity <|
  oStr "url" p.URL <|
  oNum "vat_amount" p.VATAmount []

/-- Whether `encoding/json` can marshal this `Product`: every float that is
not omitted must be finite. -/
def Product.marshalOk (p : Product) : Bool :=
  (p.NetAmount.isZero || p.NetAmount.isFinite) &&
  (p.VATAmount.isZero || p.VATAmount.isFinite)

/-- Field dispatcher for decoding a `Product` object. -/
def applyProduct (acc : Product) (kv : String × Jx) :
    Except Unit Product :=
  if kv.1 = "category" then do .ok { acc with Category := ← asStr kv.2 acc.Category }
  else if kv.1 = "currency" then do .ok { acc with Currency := ← asStr kv.2 acc.Currency }
  else if kv.1 = "description" then do
    .ok { acc with Description := ← asStr kv.2 acc.Description }
  else if kv.1 = "id" then do .ok { acc with ID := ← asStr kv.2 acc.ID }
  else if kv.1 = "image" then do .ok { acc with Image := ← asStr kv.2 acc.Image }
  else if kv.1 = "name" then do .ok { acc with Name := ← asStr kv.2 acc.Name }
  else if kv.1 = "net_amount" then do .ok { acc with NetAmount := ← asNum kv.2 acc.NetAmount }
  else if kv.1 = "quantity" then do .ok { acc with Quantity := ← asStr kv.2 acc.Quantity }
  else if kv.1 = "url" then do .ok { acc with URL := ← asStr kv.2 acc.URL }
  else if kv.1 = "vat_amount" then do .ok { acc with VATAmount := ← asNum kv.2 acc.VATAmount }
  else .ok acc

/-- Decode a JSON value as one `Product` slice element. -/
def decodeProduct (j : Jx) : Except Unit Product :=
  match j with
  | .null => .ok defProduct
  | .obj fs => decObj applyProduct defProduct fs
  | _ => .error ()

/-- Serialized field list of a `Recipient` (declaration order). -/
def encRecipientFields (r : Recipient) : List (String × Jx) :=
  oStr "address" r.Address <|
  oStr "city" r.City <|
  oStr "country" r.Country <|
  oStr "email" r.Email <|
  oStr "external_id" r.ExternalID <|
  oStr "first_name" r.FirstName <|
  oStr "last_name" r.LastName <|
  oStr "patronym" r.Patronym <|
  ("payment_method", .obj (encPaymentMethodFields r.PaymentMethod)) ::
  oStr "phone" r.Phone (oStr "postal_code" r.PostalCode [])

/-- Field dispatcher for decoding a `Recipient` object. -/
def applyRecipient (acc : Recipient) (kv : String × Jx) :
    Except Unit Recipient :=
  if kv.1 = "address" then do .ok { acc with Address := ← asStr kv.2 acc.Address }
  else if kv.1 = "city" then do .ok { acc with City := ← asStr kv.2 acc.City }
  else if kv.1 = "country" then do .ok { acc with Country := ← asStr kv.2 acc.Country }
  else if kv.1 = "email" then do .ok { acc with Email := ← asStr kv.2 acc.Email }
  else if kv.1 = "external_id" then do
    .ok { acc with ExternalID := ← asStr kv.2 acc.ExternalID }
  else if kv.1 = "first_name" then do .ok { acc with FirstName := ← asStr kv.2 acc.FirstName }
  else if kv.1 = "last_name" then do .ok { acc with LastName := ← asStr kv.2 acc.LastName }
  else if kv.1 = "patronym" then do .ok { acc with Patronym := ← asStr kv.2 acc.Patronym }
  else if kv.1 = "payment_method" then do
    .ok { acc with PaymentMethod := ← asObj applyPaymentMethod kv.2 acc.PaymentMethod }
  else if kv.1 = "phone" then do .ok { acc with Phone := ← asStr kv.2 acc.Phone }
  else if kv.1 = "postal_code" then do
    .ok { acc with PostalCode := ← asStr kv.2 acc.PostalCode }
  else .ok acc

/-- Serialized field list of a `CustomerData` (declaration order). -/
def encCustomerDataFields (c : CustomerData) : List (String × Jx) :=
  oStr "color_mode" c.ColorMode <|
  oStr "locale" c.Locale <|
  oStr "account_number" c.AccountNumber <|
  oStr "ip_address" c.IPAddress <|
  oStr "address" c.Address <|
  oStr "city" c.City <|
  oStr "country" c.Country <|
  oStr "email" c.Email <|
  oStr "external_id" c.ExternalID <|
  oStr "first_name" c.FirstName <|
  oStr "last_name" c.LastName <|
  oStr "patronym" c.Patronym <|
  ("payment_method", .obj (encPaymentMethodFields c.PaymentMethod)) ::
  oStr "phone" c.Phone (oStr "postal_code" c.PostalCode [])

/-- Field dispatcher for decoding a `CustomerData` object. -/
def applyCustomerData (acc : CustomerData) (kv : String × Jx) :
    Except Unit CustomerData :=
  if kv.1 = "color_mode" then do .ok { acc with ColorMode := ← asStr kv.2 acc.ColorMode }
  else if kv.1 = "locale" then do .ok { acc with Locale := ← asStr kv.2 acc.Locale }
  else if kv.1 = "account_number" then do
    .ok { acc with AccountNumber := ← asStr kv.2 acc.AccountNumber }
  else if kv.1 = "ip_address" then do .ok { acc with IPAddress := ← asStr kv.2 acc.IPAddress }
  else if kv.1 = "address" then do .ok { acc with Address := ← asStr kv.2 acc.Address }
  else if kv.1 = "city" then do .ok { acc with City := ← asStr kv.2 acc.City }
  else if kv.1 = "country" then do .ok { acc with Country := ← asStr kv.2 acc.Country }
  else if kv.1 = "email" then do .ok { acc with Email := ← asStr kv.2 acc.Email }
  else if kv.1 = "external_id" then do
    .ok { acc with ExternalID := ← asStr kv.2 acc.ExternalID }
  else if kv.1 = "first_name" then do .ok { acc with FirstName := ← asStr kv.2 acc.FirstName }
  else if kv.1 = "last_name" then do .ok { acc with LastName := ← asStr kv.2 acc.LastName }
  else if kv.1 = "patronym" then do .ok { acc with Patronym := ← asStr kv.2 acc.Patronym }
  else if kv.1 = "payment_method" then do
    .ok { acc with PaymentMethod := ← asObj applyPaymentMethod kv.2 acc.PaymentMethod }
  else if kv.1 = "phone" then do .ok { acc with Phone := ← asStr kv.2 acc.Phone }
  else if kv.1 = "postal_code" then do
    .ok { acc with PostalCode := ← asStr kv.2 acc.PostalCode }
  else .ok acc

/-- Serialized field list of a `CreatePaymentSchema` (declaration order). -/
def encCreatePaymentFields (s : CreatePaymentSchema) : List (String × Jx) :=
  ("amount", .num s.Amount) ::
  ("currency", .str s.Currency) ::
  ("external_id", .str s.ExternalID) ::
  ("mode", .str s.Mode) ::
  (oStr "callback_url" s.CallbackURL <|
   oStr "result_url" s.ResultURL <|
   oBool "confirm" s.Confirm <|
   oStr "description" s.Description <|
   oStr "payload" s.Payload <|
   ("customer", encOptObj encCustomerDataFields s.Customer) ::
   (oArr "products" (s.Products.map fun p => Jx.obj (encProductFields p)) <|
    oOpt "recipient" (s.Recipient.map fun r => Jx.obj (encRecipientFields r)) <|
    oProps "properties" s.Properties []))

/-- Whether `encoding/json` can marshal this `CreatePaymentSchema`: the
plain `amount` field and every non-omitted product float must be finite. -/
def CreatePaymentSchema.marshalOk (s : CreatePaymentSchema) : Bool :=
  s.Amount.isFinite && s.Products.all Product.marshalOk

/-- `json.Marshal` of a `CreatePaymentSchema`. -/
def encodeCreatePaymentSchema (s : CreatePaymentSchema) : Except Unit Jx :=
  if s.marshalOk then .ok (.obj (encCreatePaymentFields s)) else .error ()

/-- Field dispatcher for decoding a `CreatePaymentSchema` object. -/
def applyCPS (acc : CreatePaymentSchema) (kv : String × Jx) :
    Except Unit CreatePaymentSchema :=
  if kv.1 = "amount" then do .ok { acc with Amount := ← asNum kv.2 acc.Amount }
  else if kv.1 = "currency" then do .ok { acc with Currency := ← asStr kv.2 acc.Currency }
  else if kv.1 = "external_id" then do
    .ok { acc with ExternalID := ← asStr kv.2 acc.ExternalID }
  else if kv.1 = "mode" then do .ok { acc with Mode := ← asStr kv.2 acc.Mode }
  else if kv.1 = "callback_url" then do
    .ok { acc with CallbackURL := ← asStr kv.2 acc.CallbackURL }
  else if kv.1 = "result_url" then do
    .ok { acc with ResultURL := ← asStr kv.2 acc.ResultURL }
  else if kv.1 = "confirm" then do .ok { acc with Confirm := ← asBool kv.2 acc.Confirm }
  else if kv.1 = "description" then do
    .ok { acc with Description := ← asStr kv.2 acc.Description }
  else if kv.1 = "payload" then do .ok { acc with Payload := ← asStr kv.2 acc.Payload }
  else if kv.1 = "customer" then
    match kv.2 with
    | .null => .ok { acc with Customer := none }
    | .obj fs => do
      let c ← decObj applyCustomerData (acc.Customer.getD defCustomerData) fs
      .ok { acc with Customer := some c }
    | _ => .error ()
  else if kv.1 = "products" then
    match kv.2 with
    | .null => .ok { acc with Products := [] }
    | .arr xs => do .ok { acc with Products := ← decodeList decodeProduct xs }
    | _ => .error ()
  else if kv.1 = "recipient" then
    match kv.2 with
    | .null => .ok { acc with Recipient := none }
    | .obj fs => do
      let r ← decObj applyRecipient (acc.Recipient.getD defRecipient) fs
      .ok { acc with Recipient := some r }
    | _ => .error ()
  else if kv.1 = "properties" then
    match kv.2 with
    | .null => .ok { acc with Properties := [] }
    | .obj fs => do
      let ps ← decodeProps fs
      .ok { acc with Properties := acc.Properties ++ ps }
    | _ => .error ()
  else .ok acc

/-- `json.Unmarshal` into a zero `CreatePaymentSchema`. -/
def decodeCreatePaymentSchema (j : Jx) : Except Unit CreatePaymentSchema :=
  match j with
  | .null => .ok defCreatePaymentSchema
  | .obj fs => decObj applyCPS defCreatePaymentSchema fs
  | _ => .error ()

/-- Serialized field list of a `ConfirmPaymentSchema`. -/
def encConfirmFields (c : ConfirmPaymentSchema) : List (String × Jx) :=
  ("external_id", .str c.ExternalID) ::
  (oNum "amount" c.Amount <|
   oStr "callback_url" c.CallbackURL <|
   oStr "currency" c.Currency <|
   oStr "payload" c.Payload [])

/-- Whether `encoding/json` can marshal this `ConfirmPaymentSchema`. -/
def ConfirmPaymentSchema.marshalOk (c : ConfirmPaymentSchema) : Bool :=
  c.Amount.isZero || c.Amount.isFinite

/-- `json.Marshal` of a `ConfirmPaymentSchema`. -/
def encodeConfirmPaymentSchema (c : ConfirmPaymentSchema) : Except Unit Jx :=
  if c.marshalOk then .ok (.obj (encConfirmFields c)) else .error ()

/-- Field dispatcher for decoding a `ConfirmPaymentSchema` object. -/
def applyConfirm (acc : ConfirmPaymentSchema) (kv : String × Jx) :
    Except Unit ConfirmPaymentSchema :=
  if kv.1 = "external_id" then do
    .ok { acc with ExternalID := ← asStr kv.2 acc.ExternalID }
  else if kv.1 = "amount" then do .ok { acc with Amount := ← asNum kv.2 acc.Amount }
  else if kv.1 = "callback_url" then do
    .ok { acc with CallbackURL := ← asStr kv.2 acc.CallbackURL }
  else if kv.1 = "currency" then do .ok { acc with Currency := ← asStr kv.2 acc.Currency }
  else if kv.1 = "payload" then do .ok { acc with Payload := ← asStr kv.2 acc.Payload }
  else .ok acc

/-- `json.Unmarshal` into a zero `ConfirmPaymentSchema`. -/
def decodeConfirmPaymentSchema (j : Jx) : Except Unit ConfirmPaymentSchema :=
  match j with
  | .null => .ok defConfirmPaymentSchema
  | .obj fs => decObj applyConfirm defConfirmPaymentSchema fs
  | _ => .error ()

/-- Serialized field list of a `CancelPaymentSchema`. -/
def encCancelFields (c : CancelPaymentSchema) : List (String × Jx) :=
  ("external_id", .str c.ExternalID) ::
  (oNum "amount" c.Amount <|
   oStr "callback_url" c.CallbackURL <|
   oStr "currency" c.Currency <|
   oStr "payload" c.Payload [])

/-- Whether `encoding/json` can marshal this `CancelPaymentSchema`. -/
def CancelPaymentSchema.marshalOk (c : CancelPaymentSchema) : Bool :=
  c.Amount.isZero || c.Amount.isFinite

/-- `json.Marshal` of a `CancelPaymentSchema`. -/
def encodeCancelPaymentSchema (c : CancelPaymentSchema) : Except Unit Jx :=
  if c.marshalOk then .ok (.obj (encCancelFields c)) else .error ()

/-- Field dispatcher for decoding a `CancelPaymentSchema` object. -/
def applyCancel (acc : CancelPaymentSchema) (kv : String × Jx) :
    Except Unit CancelPaymentSchema :=
  if kv.1 = "external_id" then do
    .ok { acc with ExternalID := ← asStr kv.2 acc.ExternalID }
  else if kv.1 = "amount" then do .ok { acc with Amount := ← asNum kv.2 acc.Amount }
  else if kv.1 = "callback_url" then do
    .ok { acc with CallbackURL := ← asStr kv.2 acc.CallbackURL }
  else if kv.1 = "currency" then do .ok { acc with Currency := ← asStr kv.2 acc.Currency }
  else if kv.1 = "payload" then do .ok { acc with Payload := ← asStr kv.2 acc.Payload }
  else .ok acc

/-- `json.Unmarshal` into a zero `CancelPaymentSchema`. -/
def decodeCancelPaymentSchema (j : Jx) : Except Unit CancelPaymentSchema :=
  match j with
  | .null => .ok defCancelPaymentSchema
  | .obj fs => decObj applyCancel defCancelPaymentSchema fs
  | _ => .error ()

/-- Serialized field list of a `RefundPaymentSchema`. -/
def encRefundFields (c : RefundPaymentSchema) : List (String × Jx) :=
  ("external_id", .str c.ExternalID) ::
  (oNum "amount" c.Amount <|
   oStr "callback_url" c.CallbackURL <|
   oStr "currency" c.Currency <|
   oStr "payload" c.Payload [])

/-- Whether `encoding/json` can marshal this `RefundPaymentSchema`. -/
def RefundPaymentSchema.marshalOk (c : RefundPaymentSchema) : Bool :=
  c.Amount.isZero || c.Amount.isFinite

/-- `json.Marshal` of a `RefundPaymentSchema`. -/
def encodeRefundPaymentSchema (c : RefundPaymentSchema) : Except Unit Jx :=
  if c.marshalOk then .ok (.obj (encRefundFields c)) else .error ()

/-- Field dispatcher for decoding a `RefundPaymentSchema` object. -/
def applyRefund (acc : RefundPaymentSchema) (kv : String × Jx) :
    Except Unit RefundPaymentSchema :=
  if kv.1 = "external_id" then do
    .ok { acc with ExternalID := ← asStr kv.2 acc.ExternalID }
  else if kv.1 = "amount" then do .ok { acc with Amount := ← asNum kv.2 acc.Amount }
  else if kv.1 = "callback_url" then do
    .ok { acc with CallbackURL := ← asStr kv.2 acc.CallbackURL }
  else if kv.1 = "currency" then do .ok { acc with Currency := ← asStr kv.2 acc.Currency }
  else if kv.1 = "payload" then do .ok { acc with Payload := ← asStr kv.2 acc.Payload }
  else .ok acc

/-- `json.Unmarshal` into a zero `RefundPaymentSchema`. -/
def decodeRefundPaymentSchema (j : Jx) : Except Unit RefundPaymentSchema :=
  match j with
  | .null => .ok defRefundPaymentSchema
  | .obj fs => decObj applyRefund defRefundPaymentSchema fs
  | _ => .error ()

/-- `json.Marshal` of a `PaymentCallbackResendSchema` (never fails). -/
def encodeResendSchema (s : PaymentCallbackResendSchema) : Except Unit Jx :=
  .ok (.obj [("external_id", .str s.ExternalID), ("operation", .str s.Operation)])

/-- Field dispatcher for decoding a `PaymentCallbackResendSchema` object. -/
def applyResend (acc : PaymentCallbackResendSchema) (kv : String × Jx) :
    Except Unit PaymentCallbackResendSchema :=
  if kv.1 = "external_id" then do
    .ok { acc with ExternalID := ← asStr kv.2 acc.ExternalID }
  else if kv.1 = "operation" then do .ok { acc with Operation := ← asStr kv.2 acc.Operation }
  else .ok acc

/-- `json.Unmarshal` into a zero `PaymentCallbackResendSchema`. -/
def decodeResendSchema (j : Jx) : Except Unit PaymentCallbackResendSchema :=
  match j with
  | .null => .ok defPaymentCallbackResendSchema
  | .obj fs => decObj applyResend defPaymentCallbackResendSchema fs
  | _ => .error ()

/-- `json.Marshal` of an `AddWalletCustomerSchema` (never fails). -/
def encodeAddWalletSchema (s : AddWalletCustomerSchema) : Except Unit Jx :=
  .ok (.obj
    [("callback_url", .str s.CallbackURL),
     ("result_url", .str s.ResultURL),
     ("payment_method", .obj (encPaymentMethodFields s.PaymentMethod))])

/-- Field dispatcher for decoding an `AddWalletCustomerSchema` object. -/
def applyAddWallet (acc : AddWalletCustomerSchema) (kv : String × Jx) :
    Except Unit AddWalletCustomerSchema :=
  if kv.1 = "callback_url" then do
    .ok { acc with CallbackURL := ← asStr kv.2 acc.CallbackURL }
  else if kv.1 = "result_url" then do .ok { acc with ResultURL := ← asStr kv.2 acc.ResultURL }
  else if kv.1 = "payment_method" then do
    .ok { acc with PaymentMethod := ← asObj applyPaymentMethod kv.2 acc.PaymentMethod }
  else .ok acc

/-- `json.Unmarshal` into a zero `AddWalletCustomerSchema`. -/
def decodeAddWalletSchema (j : Jx) : Except Unit AddWalletCustomerSchema :=
  match j with
  | .null => .ok defAddWalletCustomerSchema
  | .obj fs => decObj applyAddWallet defAddWalletCustomerSchema fs
  | _ => .error ()

/-- `json.Marshal` of a `DeleteWalletCustomerSchema` (never fails). -/
def encodeDeleteWalletSchema (s : DeleteWalletCustomerSchema) : Except Unit Jx :=
  .ok (.obj [("option_id", .str s.OptionID), ("type", .str s.type)])

/-- Field dispatcher for decoding a `DeleteWalletCustomerSchema` object. -/
def applyDeleteWallet (acc : DeleteWalletCustomerSchema) (kv : String × Jx) :
    Except Unit DeleteWalletCustomerSchema :=
  if kv.1 = "option_id" then do .ok { acc with OptionID := ← asStr kv.2 acc.OptionID }
  else if kv.1 = "type" then do .ok { acc with type := ← asStr kv.2 acc.type }
  else .ok acc

/-- `json.Unmarshal` into a zero `DeleteWalletCustomerSchema`. -/
def decodeDeleteWalletSchema (j : Jx) : Except Unit DeleteWalletCustomerSchema :=
  match j with
  | .null => .ok defDeleteWalletCustomerSchema
  | .obj fs => decObj applyDeleteWallet defDeleteWalletCustomerSchema fs
  | _ => .error ()

/-- Serialized field list of a `PaymentUserAction`. -/
def encActionFields (a : PaymentUserAction) : List (String × Jx) :=
  [("type", .str a.type), ("value", .str a.Value)]

/-- Field dispatcher for decoding a `PaymentUserAction` object. -/
def applyAction (acc : PaymentUserAction) (kv : String × Jx) :
    Except Unit PaymentUserAction :=
  if kv.1 = "type" then do .ok { acc with type := ← asStr kv.2 acc.type }
  else if kv.1 = "value" then do .ok { acc with Value := ← asStr kv.2 acc.Value }
  else .ok acc

/-- Serialized field list of a `PaymentResponseDetailsProperties`. -/
def encDetailsPropsFields (p : PaymentResponseDetailsProperties) :
    List (String × Jx) :=
  [("property1", .str p.Property1), ("property2", .str p.Property2)]

/-- Field dispatcher for decoding a `PaymentResponseDetailsProperties`. -/
def applyDetailsProps (acc : PaymentResponseDetailsProperties) (kv : String × Jx) :
    Except Unit PaymentResponseDetailsProperties :=
  if kv.1 = "property1" then do .ok { acc with Property1 := ← asStr kv.2 acc.Property1 }
  else if kv.1 = "property2" then do .ok { acc with Property2 := ← asStr kv.2 acc.Property2 }
  else .ok acc

/-- Serialized field list of a `PaymentResponseDetailsFee`. -/
def encFeeFields (f : PaymentResponseDetailsFee) : List (String × Jx) :=
  [("amount", .str f.Amount), ("currency", .str f.Currency)]

/-- Field dispatcher for decoding a `PaymentResponseDetailsFee`. -/
def applyFee (acc : PaymentResponseDetailsFee) (kv : String × Jx) :
    Except Unit PaymentResponseDetailsFee :=
  if kv.1 = "amount" then do .ok { acc with Amount := ← asStr kv.2 acc.Amount }
  else if kv.1 = "currency" then do .ok { acc with Currency := ← asStr kv.2 acc.Currency }
  else .ok acc

/-- Serialized field list of a `PaymentResponseDetails` (declared order). -/
def encDetailsFields (d : PaymentResponseDetails) : List (String × Jx) :=
  [("amount", .str d.Amount),
   ("billing_order_id", .str d.BillingOrderID),
   ("created_at", .str d.CreatedAt.rfc3339),
   ("currency", .str d.Currency),
   ("description", .str d.Description),
   ("gateway_order_id", .str d.GatewayOrderID),
   ("payload", .str d.Payload),
   ("payment_id", .str d.PaymentID),
   ("processed_at", .str d.ProcessedAt.rfc3339),
   ("properties", .obj (encDetailsPropsFields d.Properties)),
   ("rrn", .str d.RRN),
   ("status", .str d.Status),
   ("status_code", .str d.StatusCode),
   ("status_description", .str d.StatusDescription),
   ("transaction_id", .str d.TransactionID),
   ("auth_code", .str d.AuthCode),
   ("fee", .obj (encFeeFields d.Fee)),
   ("terminal_name", .str d.TerminalName)]

/-- Field dispatcher for decoding a `PaymentResponseDetails` object. -/
def applyDetails (acc : PaymentResponseDetails) (kv : String × Jx) :
    Except Unit PaymentResponseDetails :=
  if kv.1 = "amount" then do .ok { acc with Amount := ← asStr kv.2 acc.Amount }
  else if kv.1 = "billing_order_id" then do
    .ok { acc with BillingOrderID := ← asStr kv.2 acc.BillingOrderID }
  else if kv.1 = "created_at" then do .ok { acc with CreatedAt := ← asTime kv.2 acc.CreatedAt }
  else if kv.1 = "currency" then do .ok { acc with Currency := ← asStr kv.2 acc.Currency }
  else if kv.1 = "description" then do
    .ok { acc with Description := ← asStr kv.2 acc.Description }
  else if kv.1 = "gateway_order_id" then do
    .ok { acc with GatewayOrderID := ← asStr kv.2 acc.GatewayOrderID }
  else if kv.1 = "payload" then do .ok { acc with Payload := ← asStr kv.2 acc.Payload }
  else if kv.1 = "payment_id" then do .ok { acc with PaymentID := ← asStr kv.2 acc.PaymentID }
  else if kv.1 = "processed_at" then do
    .ok { acc with ProcessedAt := ← asTime kv.2 acc.ProcessedAt }
  else if kv.1 = "properties" then do
    .ok { acc with Properties := ← asObj applyDetailsProps kv.2 acc.Properties }
  else if kv.1 = "rrn" then do .ok { acc with RRN := ← asStr kv.2 acc.RRN }
  else if kv.1 = "status" then do .ok { acc with Status := ← asStr kv.2 acc.Status }
  else if kv.1 = "status_code" then do
    .ok { acc with StatusCode := ← asStr kv.2 acc.StatusCode }
  else if kv.1 = "status_description" then do
    .ok { acc with StatusDescription := ← asStr kv.2 acc.StatusDescription }
  else if kv.1 = "transaction_id" then do
    .ok { acc with TransactionID := ← asStr kv.2 acc.TransactionID }
  else if kv.1 = "auth_code" then do .ok { acc with AuthCode := ← asStr kv.2 acc.AuthCode }
  else if kv.1 = "fee" then do .ok { acc with Fee := ← asObj applyFee kv.2 acc.Fee }
  else if kv.1 = "terminal_name" then do
    .ok { acc with TerminalName := ← asStr kv.2 acc.TerminalName }
  else .ok acc

/-- Serialized field list of a `PaymentResponseCustomer`. -/
def encRespCustomerFields (c : PaymentResponseCustomer) : List (String × Jx) :=
  [("browser_user_agent", .str c.BrowserUserAgent),
   ("email", .str c.Email),
   ("external_id", .str c.ExternalID),
   ("first_name", .str c.FirstName),
   ("ip_address", .str c.IPAddress),
   ("last_name", .str c.LastName),
   ("patronym", .str c.Patronym),
   ("phone", .str c.Phone)]

/-- Field dispatcher for decoding a `PaymentResponseCustomer` object. -/
def applyRespCustomer (acc : PaymentResponseCustomer) (kv : String × Jx) :
    Except Unit PaymentResponseCustomer :=
  if kv.1 = "browser_user_agent" then do
    .ok { acc with BrowserUserAgent := ← asStr kv.2 acc.BrowserUserAgent }
  else if kv.1 = "email" then do .ok { acc with Email := ← asStr kv.2 acc.Email }
  else if kv.1 = "external_id" then do
    .ok { acc with ExternalID := ← asStr kv.2 acc.ExternalID }
  else if kv.1 = "first_name" then do .ok { acc with FirstName := ← asStr kv.2 acc.FirstName }
  else if kv.1 = "ip_address" then do .ok { acc with IPAddress := ← asStr kv.2 acc.IPAddress }
  else if kv.1 = "last_name" then do .ok { acc with LastName := ← asStr kv.2 acc.LastName }
  else if kv.1 = "patronym" then do .ok { acc with Patronym := ← asStr kv.2 acc.Patronym }
  else if kv.1 = "phone" then do .ok { acc with Phone := ← asStr kv.2 acc.Phone }
  else .ok acc

/-- Serialized field list of a `PaymentResponse` (declaration order). -/
def encPaymentResponseFields (r : PaymentResponse) : List (String × Jx) :=
  [("id", .str r.ID),
   ("action", .obj (encActionFields r.Action)),
   ("action_required", .bool r.ActionRequired),
   ("details", .obj (encDetailsFields r.Details)),
   ("external_id", .str r.ExternalID),
   ("is_success", .bool r.IsSuccess),
   ("receipt_url", .str r.ReceiptURL),
   ("payment_method", .obj (encPaymentMethodFields r.PaymentMethod)),
   ("customer", .obj (encRespCustomerFields r.Customer))]

/-- `json.Marshal` of a `PaymentResponse` (never fails: every field is a
string, bool, struct of such, or a time modelled by its serialization). -/
def encodePaymentResponse (r : PaymentResponse) : Jx :=
  .obj (encPaymentResponseFields r)

/-- Field dispatcher for decoding a `PaymentResponse` object. -/
def applyPaymentResponse (acc : PaymentResponse) (kv : String × Jx) :
    Except Unit PaymentResponse :=
  if kv.1 = "id" then do .ok { acc with ID := ← asStr kv.2 acc.ID }
  else if kv.1 = "action" then do
    .ok { acc with Action := ← asObj applyAction kv.2 acc.Action }
  else if kv.1 = "action_required" then do
    .ok { acc with ActionRequired := ← asBool kv.2 acc.ActionRequired }
  else if kv.1 = "details" then do
    .ok { acc with Details := ← asObj applyDetails kv.2 acc.Details }
  else if kv.1 = "external_id" then do
    .ok { acc with ExternalID := ← asStr kv.2 acc.ExternalID }
  else if kv.1 = "is_success" then do
    .ok { acc with IsSuccess := ← asBool kv.2 acc.IsSuccess }
  else if kv.1 = "receipt_url" then do
    .ok { acc with ReceiptURL := ← asStr kv.2 acc.ReceiptURL }
  else if kv.1 = "payment_method" then do
    .ok { acc with PaymentMethod := ← asObj applyPaymentMethod kv.2 acc.PaymentMethod }
  else if kv.1 = "customer" then do
    .ok { acc with Customer := ← asObj applyRespCustomer kv.2 acc.Customer }
  else .ok acc

/-- `json.Unmarshal(body, &callback)` for a nil `*PaymentResponse`: `null`
leaves the pointer nil, an object allocates and fills a struct, any other
document is a type error. -/
def decodePaymentResponsePtr : Jx → Except Unit (Option PaymentResponse)
  | .null => .ok none
  | .obj fs => do .ok (some (← decObj applyPaymentResponse defPaymentResponse fs))
  | _ => .error ()

/-- `Client.GetPaymentCallbackFromBytes` (the `ParseCallback` helper of the
spec): pure deserialization of a webhook body, no HTTP involved. -/
def GetPaymentCallbackFromBytes (body : Body) :
    Except Unit (Option PaymentResponse) :=
  match body with
  | .empty => .error ()
  | .malformed => .error ()
  | .json j => decodePaymentResponsePtr j

/-- A float64 sitting in an `omitempty` field marshals and round-trips
exactly when it is zero or finite, and is not the negative-zero pattern
(Go's `omitempty` drops `-0.0`, which decodes back as `+0.0`). -/
def OmitSafeF64 (x : F64) : Prop :=
  (x.isZero || x.isFinite) = true ∧ x.bits ≠ 2 ^ 63

instance (x : F64) : Decidable (OmitSafeF64 x) :=
  inferInstanceAs (Decidable ((x.isZero || x.isFinite) = true ∧ x.bits ≠ 2 ^ 63))

/-- Validity of a `Product` for the marshal/unmarshal round trip. -/
def ValidProduct (p : Product) : Prop :=
  OmitSafeF64 p.NetAmount ∧ OmitSafeF64 p.VATAmount

instance (p : Product) : Decidable (ValidProduct p) :=
  inferInstanceAs (Decidable (OmitSafeF64 p.NetAmount ∧ OmitSafeF64 p.VATAmount))

/-- Lexicographic strict order on character lists (by scalar value), the
order in which Go sorts map keys when marshalling. -/
def strLtChars : List Char → List Char → Bool
  | [], [] => false
  | [], _ :: _ => true
  | _ :: _, [] => false
  | a :: as, b :: bs =>
    if a.toNat < b.toNat then true
    else if a.toNat = b.toNat then strLtChars as bs
    else false

/-- Lexicographic strict order on strings. -/
def strLt (a b : String) : Bool := strLtChars a.data b.data

/-- Strict sortedness of adjacent keys. -/
def propsSorted : List (String × String) → Bool
  | [] => true
  | [_] => true
  | a :: b :: rest => strLt a.1 b.1 && propsSorted (b :: rest)

/-- Canonical (key-sorted, hence duplicate-free) association list: the
normal form in which a Go `map[string]string` is represented here, matching
the sorted key order `encoding/json` emits. -/
def PropsCanonical (ps : List (String × String)) : Prop :=
  propsSorted ps = true

instance (ps : List (String × String)) : Decidable (PropsCanonical ps) :=
  inferInstanceAs (Decidable (propsSorted ps = true))

/-- Validity of a `CreatePaymentSchema`: the payment amount is finite (so
`json.Marshal` accepts it), product floats are omit-safe, and the
properties map is in canonical form. -/
def ValidCreatePayment (s : CreatePaymentSchema) : Prop :=
  s.Amount.isFinite = true ∧ (∀ p ∈ s.Products, ValidProduct p) ∧
  PropsCanonical s.Properties

instance (s : CreatePaymentSchema) : Decidable (ValidCreatePayment s) :=
  inferInstanceAs (Decidable (s.Amount.isFinite = true ∧
    (∀ p ∈ s.Products, ValidProduct p) ∧ PropsCanonical s.Properties))

/-- Validity of a `ConfirmPaymentSchema` for the round trip. -/
def ValidConfirmPayment (c : ConfirmPaymentSchema) : Prop :=
  OmitSafeF64 c.Amount

/-- Validity of a `CancelPaymentSchema` for the round trip. -/
def ValidCancelPayment (c : CancelPaymentSchema) : Prop :=
  OmitSafeF64 c.Amount

/-- Validity of a `RefundPaymentSchema` for the round trip. -/
def ValidRefundPayment (c : RefundPaymentSchema) : Prop :=
  OmitSafeF64 c.Amount

/-- Sample request used by witnesses. -/
def reqSample : HttpRequest :=
  { method := "POST"
    url := "https://api.rozetkapay.com/api/payments/v1/new"
    query := []
    header := [("X-Custom", ["1"])]
    body := none }

/-- Sample gateway error body used by witnesses. -/
def errBodySample : Jx :=
  .obj [("code", .str "transaction_declined"), ("message", .str "m"),
        ("param", .str "p"), ("payment_id", .str "id1"), ("type", .str "t")]

/-- Sample product used by the round-trip witness. -/
def productSample : Product :=
  { Category := "c", Currency := "UAH", Description := "", ID := "p1"
    Image := "", Name := "n", NetAmount := ⟨0⟩, Quantity := "2", URL := ""
    VATAmount := ⟨0x4039000000000000⟩ }

/-- Sample create-payment schema used by the round-trip witness. -/
def cpsSample : CreatePaymentSchema :=
  { Amount := ⟨0x4059000000000000⟩, Currency := "UAH", ExternalID := "ord-1"
    Mode := "direct", CallbackURL := "", ResultURL := "https://r.example"
    Confirm := true, Description := "", Payload := ""
    Customer := some { defCustomerData with Email := "a@b.c", FirstName := "A" }
    Products := [productSample], Recipient := none
    Properties := [("a", "1"), ("b", "2")] }

/-- ASCII lowercase of a string (HTTP header field names compare
case-insensitively on the wire). -/
def lowerStr (s : String) : String :=
  ⟨s.data.map Char.toLower⟩

/-- String `omitempty` collapse: the decoded value of an omitted-or-present
string field equals the original. -/
theorem ite_empty_self (v : String) : (if v = "" then "" else v) = v := by
  by_cases hv : v = "" <;> simp [hv]

/-- Bool `omitempty` collapse. -/
theorem ite_false_self (b : Bool) : (if b = true then b else false) = b := by
  cases b <;> simp

/-- List `omitempty` collapse. -/
theorem list_ite_empty {α : Type} (ps : List α) :
    (if ps.isEmpty = true then ([] : List α) else ps) = ps := by
  cases ps <;> simp

/-- Float `omitempty` collapse, given the value is not negative zero. -/
theorem f64_ite_zero (x : F64) (h : x.bits ≠ 2 ^ 63) :
    (if x.isZero = true then F64.mk 0 else x) = x := by
  rcases x with ⟨b⟩
  by_cases hz : F64.isZero ⟨b⟩ = true
  · have hb : b = 0 ∨ b = 2 ^ 63 := by simpa [F64.isZero] using hz
    rcases hb with rfl | h63
    · simp [hz]
    · exact absurd h63 h
  · simp [hz]

/-- Decoding step through the `browser_accept_header` field. -/
theorem stepBF1 (acc : BrowserFingerprint) (v : String) (rest : List (String × Jx)) :
    decObj applyBF acc (oStr "browser_accept_header" v rest) =
      decObj applyBF { acc with BrowserAcceptHeader := if v = "" then acc.BrowserAcceptHeader else v } rest := by
  by_cases hv : v = "" <;> simp [oStr, hv, decObj, applyBF, asStr, bind, Except.bind]

/-- Decoding step through the `browser_color_depth` field. -/
theorem stepBF2 (acc : BrowserFingerprint) (v : String) (rest : List (String × Jx)) :
    decObj applyBF acc (oStr "browser_color_depth" v rest) =
      decObj applyBF { acc with BrowserColorDepth := if v = "" then acc.BrowserColorDepth else v } rest := by
  by_cases hv : v = "" <;> simp [oStr, hv, decObj, applyBF, asStr, bind, Except.bind]

/-- Decoding step through the `browser_ip_address` field. -/
theorem stepBF3 (acc : BrowserFingerprint) (v : String) (rest : List (String × Jx)) :
    decObj applyBF acc (oStr "browser_ip_address" v rest) =
      decObj applyBF { acc with BrowserIPAddress := if v = "" then acc.BrowserIPAddress else v } rest := by
  by_cases hv : v = "" <;> simp [oStr, hv, decObj, applyBF, asStr, bind, Except.bind]

/-- Decoding step through the `browser_java_enabled` field. -/
theorem stepBF4 (acc : BrowserFingerprint) (v : String) (rest : List (String × Jx)) :
    decObj applyBF acc (oStr "browser_java_enabled" v rest) =
      decObj applyBF { acc with BrowserJavaEnabled := if v = "" then acc.BrowserJavaEnabled else v } rest := by
  by_cases hv : v = "" <;> simp [oStr, hv, decObj, applyBF, asStr, bind, Except.bind]

/-- Decoding step through the `browser_language` field. -/
theorem stepBF5 (acc : BrowserFingerprint) (v : String) (rest : List (String × Jx)) :
    decObj applyBF acc (oStr "browser_language" v rest) =
      decObj applyBF { acc with BrowserLanguage := if v = "" then acc.BrowserLanguage else v } rest := by
  by_cases hv : v = "" <;> simp [oStr, hv, decObj, applyBF, asStr, bind, Except.bind]

/-- Decoding step through the `browser_screen_height` field. -/
theorem stepBF6 (acc : BrowserFingerprint) (v : String) (rest : List (String × Jx)) :
    decObj applyBF acc (oStr "browser_screen_height" v rest) =
      decObj applyBF { acc with BrowserScreenHeight := if v = "" then acc.BrowserScreenHeight else v } rest := by
  by_cases hv : v = "" <;> simp [oStr, hv, decObj, applyBF, asStr, bind, Except.bind]

/-- Decoding step through the `browser_time_zone` field. -/
theorem stepBF7 (acc : BrowserFingerprint) (v : String) (rest : List (String × Jx)) :
    decObj applyBF acc (oStr "browser_time_zone" v rest) =
      decObj applyBF { acc with BrowserTimeZone := if v = "" then acc.BrowserTimeZone else v } rest := by
  by_cases hv : v = "" <;> simp [oStr, hv, decObj, applyBF, asStr, bind, Except.bind]

/-- Decoding step through the `browser_time_zone_offset` field. -/
theorem stepBF8 (acc : BrowserFingerprint) (v : String) (rest : List (String × Jx)) :
    decObj applyBF acc (oStr "browser_time_zone_offset" v rest) =
      decObj applyBF { acc with BrowserTimeZoneOffset := if v = "" then acc.BrowserTimeZoneOffset else v } rest := by
  by_cases hv : v = "" <;> simp [oStr, hv, decObj, applyBF, asStr, bind, Except.bind]

/-- Decoding step through the `browser_user_agent` field. -/
theorem stepBF9 (acc : BrowserFingerprint) (v : String) (rest : List (String × Jx)) :
    decObj applyBF acc (oStr "browser_user_agent" v rest) =
      decObj applyBF { acc with BrowserUserAgent := if v = "" then acc.BrowserUserAgent else v } rest := by
  by_cases hv : v = "" <;> simp [oStr, hv, decObj, applyBF, asStr, bind, Except.bind]

/-- `BrowserFingerprint` serialization round trip. -/
theorem rtBF (x : BrowserFingerprint) :
    decObj applyBF defBF (encBFFields x) = .ok x := by
  simp [encBFFields, stepBF1, stepBF2, stepBF3, stepBF4, stepBF5, stepBF6,
        stepBF7, stepBF8, stepBF9, ite_empty_self, defBF, decObj]

/-- `ApplePay` serialization round trip. -/
theorem rtApplePay (x : ApplePay) :
    decObj applyApplePay defApplePay (encApplePayFields x) = .ok x := by
  simp [encApplePayFields, decObj, applyApplePay, asObj, asStr, asBool,
        defApplePay, rtBF, bind, Except.bind]

/-- `CCToken` serialization round trip. -/
theorem rtCCToken (x : CCToken) :
    decObj applyCCToken defCCToken (encCCTokenFields x) = .ok x := by
  simp [encCCTokenFields, decObj, applyCCToken, asObj, asStr, asBool,
        defCCToken, rtBF, bind, Except.bind]

/-- `GooglePay` serialization round trip. -/
theorem rtGooglePay (x : GooglePay) :
    decObj applyGooglePay defGooglePay (encGooglePayFields x) = .ok x := by
  simp [encGooglePayFields, decObj, applyGooglePay, asObj, asStr, asBool,
        defGooglePay, rtBF, bind, Except.bind]

/-- `Wallet` serialization round trip. -/
theorem rtWallet (x : Wallet) :
    decObj applyWallet defWallet (encWalletFields x) = .ok x := by
  simp [encWalletFields, decObj, applyWallet, asObj, asStr, asBool,
        defWallet, rtBF, bind, Except.bind]

/-- Decoding step through the `type` field of a `PaymentMethod`. -/
theorem stepPM_type (acc : PaymentMethod) (v : String) (rest : List (String × Jx)) :
    decObj applyPaymentMethod acc (oStr "type" v rest) =
      decObj applyPaymentMethod { acc with type := if v = "" then acc.type else v } rest := by
  by_cases hv : v = "" <;>
    simp [oStr, hv, decObj, applyPaymentMethod, asStr, bind, Except.bind]

/-- `ApplePay` round trip through a struct-typed field position. -/
theorem rtApplePayAsObj (x : ApplePay) :
    asObj applyApplePay (Jx.obj (encApplePayFields x)) defApplePay = .ok x := by
  simp [asObj, rtApplePay]

/-- `CCToken` round trip through a struct-typed field position. -/
theorem rtCCTokenAsObj (x : CCToken) :
    asObj applyCCToken (Jx.obj (encCCTokenFields x)) defCCToken = .ok x := by
  simp [asObj, rtCCToken]

/-- `GooglePay` round trip through a struct-typed field position. -/
theorem rtGooglePayAsObj (x : GooglePay) :
    asObj applyGooglePay (Jx.obj (encGooglePayFields x)) defGooglePay = .ok x := by
  simp [asObj, rtGooglePay]

/-- `Wallet` round trip through a struct-typed field position. -/
theorem rtWalletAsObj (x : Wallet) :
    asObj applyWallet (Jx.obj (encWalletFields x)) defWallet = .ok x := by
  simp [asObj, rtWallet]

/-- `PaymentMethod` serialization round trip. -/
theorem rtPaymentMethod (x : PaymentMethod) :
    decObj applyPaymentMethod defPaymentMethod (encPaymentMethodFields x) = .ok x := by
  simp [encPaymentMethodFields, decObj, applyPaymentMethod,
        defPaymentMethod, rtApplePayAsObj, rtCCTokenAsObj, rtGooglePayAsObj,
        rtWalletAsObj, stepPM_type, ite_empty_self, bind, Except.bind]

/-- `PaymentMethod` round trip through a struct-typed field position. -/
theorem rtPaymentMethodAsObj (x : PaymentMethod) :
    asObj applyPaymentMethod (Jx.obj (encPaymentMethodFields x)) defPaymentMethod = .ok x := by
  simp [asObj, rtPaymentMethod]
/-- Decoding step through the `category` field. -/
theorem stepProd1 (acc : Product) (v : String) (rest : List (String × Jx)) :
    decObj applyProduct acc (oStr "category" v rest) =
      decObj applyProduct { acc with Category := if v = "" then acc.Category else v } rest := by
  by_cases hv : v = "" <;> simp [oStr, hv, decObj, applyProduct, asStr, bind, Except.bind]

/-- Decoding step through the `currency` field. -/
theorem stepProd2 (acc : Product) (v : String) (rest : List (String × Jx)) :
    decObj applyProduct acc (oStr "currency" v rest) =
      decObj applyProduct { acc with Currency := if v = "" then acc.Currency else v } rest := by
  by_cases hv : v = "" <;> simp [oStr, hv, decObj, applyProduct, asStr, bind, Except.bind]

/-- Decoding step through the `description` field. -/
theorem stepProd3 (acc : Product) (v : String) (rest : List (String × Jx)) :
    decObj applyProduct acc (oStr "description" v rest) =
      decObj applyProduct { acc with Description := if v = "" then acc.Description else v } rest := by
  by_cases hv : v = "" <;> simp [oStr, hv, decObj, applyProduct, asStr, bind, Except.bind]

/-- Decoding step through the `id` field. -/
theorem stepProd4 (acc : Product) (v : String) (rest : List (String × Jx)) :
    decObj applyProduct acc (oStr "id" v rest) =
      decObj applyProduct { acc with ID := if v = "" then acc.ID else v } rest := by
  by_cases hv : v = "" <;> simp [oStr, hv, decObj, applyProduct, asStr, bind, Except.bind]

/-- Decoding step through the `image` field. -/
theorem stepProd5 (acc : Product) (v : String) (rest : List (String × Jx)) :
    decObj applyProduct acc (oStr "image" v rest) =
      decObj applyProduct { acc with Image := if v = "" then acc.Image else v } rest := by
  by_cases hv : v = "" <;> simp [oStr, hv, decObj, applyProduct, asStr, bind, Except.bind]

/-- Decoding step through the `name` field. -/
theorem stepProd6 (acc : Product) (v : String) (rest : List (String × Jx)) :
    decObj applyProduct acc (oStr "name" v rest) =
      decObj applyProduct { acc with Name := if v = "" then acc.Name else v } rest := by
  by_cases hv : v = "" <;> simp [oStr, hv, decObj, applyProduct, asStr, bind, Except.bind]

/-- Decoding step through the `net_amount` field. -/
theorem stepProd7 (acc : Product) (v : F64) (rest : List (String × Jx)) :
    decObj applyProduct acc (oNum "net_amount" v rest) =
      decObj applyProduct { acc with NetAmount := if v.isZero = true then acc.NetAmount else v } rest := by
  by_cases hv : v.isZero = true <;> simp [oNum, hv, decObj, applyProduct, asNum, bind, Except.bind]

/-- Decoding step through the `quantity` field. -/
theorem stepProd8 (acc : Product) (v : String) (rest : List (String × Jx)) :
    decObj applyProduct acc (oStr "quantity" v rest) =
      decObj applyProduct { acc with Quantity := if v = "" then acc.Quantity else v } rest := by
  by_cases hv : v = "" <;> simp [oStr, hv, decObj, applyProduct, asStr, bind, Except.bind]

/-- Decoding step through the `url` field. -/
theorem stepProd9 (acc : Product) (v : String) (rest : List (String × Jx)) :
    decObj applyProduct acc (oStr "url" v rest) =
      decObj applyProduct { acc with URL := if v = "" then acc.URL else v } rest := by
  by_cases hv : v = "" <;> simp [oStr, hv, decObj, applyProduct, asStr, bind, Except.bind]

/-- Decoding step through the `vat_amount` field. -/
theorem stepProd10 (acc : Product) (v : F64) (rest : List (String × Jx)) :
    decObj applyProduct acc (oNum "vat_amount" v rest) =
      decObj applyProduct { acc with VATAmount := if v.isZero = true then acc.VATAmount else v } rest := by
  by_cases hv : v.isZero = true <;> simp [oNum, hv, decObj, applyProduct, asNum, bind, Except.bind]

/-- Decoding step through the `address` field. -/
theorem stepRec1 (acc : Recipient) (v : String) (rest : List (String × Jx)) :
    decObj applyRecipient acc (oStr "address" v rest) =
      decObj applyRecipient { acc with Address := if v = "" then acc.Address else v } rest := by
  by_cases hv : v = "" <;> simp [oStr, hv, decObj, applyRecipient, asStr, bind, Except.bind]

/-- Decoding step through the `city` field. -/
theorem stepRec2 (acc : Recipient) (v : String) (rest : List (String × Jx)) :
    decObj applyRecipient acc (oStr "city" v rest) =
      decObj applyRecipient { acc with City := if v = "" then acc.City else v } rest := by
  by_cases hv : v = "" <;> simp [oStr, hv, decObj, applyRecipient, asStr, bind, Except.bind]

/-- Decoding step through the `country` field. -/
theorem stepRec3 (acc : Recipient) (v : String) (rest : List (String × Jx)) :
    decObj applyRecipient acc (oStr "country" v rest) =
      decObj applyRecipient { acc with Country := if v = "" then acc.Country else v } rest := by
  by_cases hv : v = "" <;> simp [oStr, hv, decObj, applyRecipient, asStr, bind, Except.bind]

/-- Decoding step through the `email` field. -/
theorem stepRec4 (acc : Recipient) (v : String) (rest : List (String × Jx)) :
    decObj applyRecipient acc (oStr "email" v rest) =
      decObj applyRecipient { acc with Email := if v = "" then acc.Email else v } rest := by
  by_cases hv : v = "" <;> simp [oStr, hv, decObj, applyRecipient, asStr, bind, Except.bind]

/-- Decoding step through the `external_id` field. -/
theorem stepRec5 (acc : Recipient) (v : String) (rest : List (String × Jx)) :
    decObj applyRecipient acc (oStr "external_id" v rest) =
      decObj applyRecipient { acc with ExternalID := if v = "" then acc.ExternalID else v } rest := by
  by_cases hv : v = "" <;> simp [oStr, hv, decObj, applyRecipient, asStr, bind, Except.bind]

/-- Decoding step through the `first_name` field. -/
theorem stepRec6 (acc : Recipient) (v : String) (rest : List (String × Jx)) :
    decObj applyRecipient acc (oStr "first_name" v rest) =
      decObj applyRecipient { acc with FirstName := if v = "" then acc.FirstName else v } rest := by
  by_cases hv : v = "" <;> simp [oStr, hv, decObj, applyRecipient, asStr, bind, Except.bind]

/-- Decoding step through the `last_name` field. -/
theorem stepRec7 (acc : Recipient) (v : String) (rest : List (String × Jx)) :
    decObj applyRecipient acc (oStr "last_name" v rest) =
      decObj applyRecipient { acc with LastName := if v = "" then acc.LastName else v } rest := by
  by_cases hv : v = "" <;> simp [oStr, hv, decObj, applyRecipient, asStr, bind, Except.bind]

/-- Decoding step through the `patronym` field. -/
theorem stepRec8 (acc : Recipient) (v : String) (rest : List (String × Jx)) :
    decObj applyRecipient acc (oStr "patronym" v rest) =
      decObj applyRecipient { acc with Patronym := if v = "" then acc.Patronym else v } rest := by
  by_cases hv : v = "" <;> simp [oStr, hv, decObj, applyRecipient, asStr, bind, Except.bind]

/-- Decoding step through the `phone` field. -/
theorem stepRec9 (acc : Recipient) (v : String) (rest : List (String × Jx)) :
    decObj applyRecipient acc (oStr "phone" v rest) =
      decObj applyRecipient { acc with Phone := if v = "" then acc.Phone else v } rest := by
  by_cases hv : v = "" <;> simp [oStr, hv, decObj, applyRecipient, asStr, bind, Except.bind]

/-- Decoding step through the `postal_code` field. -/
theorem stepRec10 (acc : Recipient) (v : String) (rest : List (String × Jx)) :
    decObj applyRecipient acc (oStr "postal_code" v rest) =
      decObj applyRecipient { acc with PostalCode := if v = "" then acc.PostalCode else v } rest := by
  by_cases hv : v = "" <;> simp [oStr, hv, decObj, applyRecipient, asStr, bind, Except.bind]

/-- Decoding step through the `color_mode` field. -/
theorem stepCD1 (acc : CustomerData) (v : String) (rest : List (String × Jx)) :
    decObj applyCustomerData acc (oStr "color_mode" v rest) =
      decObj applyCustomerData { acc with ColorMode := if v = "" then acc.ColorMode else v } rest := by
  by_cases hv : v = "" <;> simp [oStr, hv, decObj, applyCustomerData, asStr, bind, Except.bind]

/-- Decoding step through the `locale` field. -/
theorem stepCD2 (acc : CustomerData) (v : String) (rest : List (String × Jx)) :
    decObj applyCustomerData acc (oStr "locale" v rest) =
      decObj applyCustomerData { acc with Locale := if v = "" then acc.Locale else v } rest := by
  by_cases hv : v = "" <;> simp [oStr, hv, decObj, applyCustomerData, asStr, bind, Except.bind]

/-- Decoding step through the `account_number` field. -/
theorem stepCD3 (acc : CustomerData) (v : String) (rest : List (String × Jx)) :
    decObj applyCustomerData acc (oStr "account_number" v rest) =
      decObj applyCustomerData { acc with AccountNumber := if v = "" then acc.AccountNumber else v } rest := by
  by_cases hv : v = "" <;> simp [oStr, hv, decObj, applyCustomerData, asStr, bind, Except.bind]

/-- Decoding step through the `ip_address` field. -/
theorem stepCD4 (acc : CustomerData) (v : String) (rest : List (String × Jx)) :
    decObj applyCustomerData acc (oStr "ip_address" v rest) =
      decObj applyCustomerData { acc with IPAddress := if v = "" then acc.IPAddress else v } rest := by
  by_cases hv : v = "" <;> simp [oStr, hv, decObj, applyCustomerData, asStr, bind, Except.bind]

/-- Decoding step through the `address` field. -/
theorem stepCD5 (acc : CustomerData) (v : String) (rest : List (String × Jx)) :
    decObj applyCustomerData acc (oStr "address" v rest) =
      decObj applyCustomerData { acc with Address := if v = "" then acc.Address else v } rest := by
  by_cases hv : v = "" <;> simp [oStr, hv, decObj, applyCustomerData, asStr, bind, Except.bind]

/-- Decoding step through the `city` field. -/
theorem stepCD6 (acc : CustomerData) (v : String) (rest : List (String × Jx)) :
    decObj applyCustomerData acc (oStr "city" v rest) =
      decObj applyCustomerData { acc with City := if v = "" then acc.City else v } rest := by
  by_cases hv : v = "" <;> simp [oStr, hv, decObj, applyCustomerData, asStr, bind, Except.bind]

/-- Decoding step through the `country` field. -/
theorem stepCD7 (acc : CustomerData) (v : String) (rest : List (String × Jx)) :
    decObj applyCustomerData acc (oStr "country" v rest) =
      decObj applyCustomerData { acc with Country := if v = "" then acc.Country else v } rest := by
  by_cases hv : v = "" <;> simp [oStr, hv, decObj, applyCustomerData, asStr, bind, Except.bind]

/-- Decoding step through the `email` field. -/
theorem stepCD8 (acc : CustomerData) (v : String) (rest : List (String × Jx)) :
    decObj applyCustomerData acc (oStr "email" v rest) =
      decObj applyCustomerData { acc with Email := if v = "" then acc.Email else v } rest := by
  by_cases hv : v = "" <;> simp [oStr, hv, decObj, applyCustomerData, asStr, bind, Except.bind]

/-- Decoding step through the `external_id` field. -/
theorem stepCD9 (acc : CustomerData) (v : String) (rest : List (String × Jx)) :
    decObj applyCustomerData acc (oStr "external_id" v rest) =
      decObj applyCustomerData { acc with ExternalID := if v = "" then acc.ExternalID else v } rest := by
  by_cases hv : v = "" <;> simp [oStr, hv, decObj, applyCustomerData, asStr, bind, Except.bind]

/-- Decoding step through the `first_name` field. -/
theorem stepCD10 (acc : CustomerData) (v : String) (rest : List (String × Jx)) :
    decObj applyCustomerData acc (oStr "first_name" v rest) =
      decObj applyCustomerData { acc with FirstName := if v = "" then acc.FirstName else v } rest := by
  by_cases hv : v = "" <;> simp [oStr, hv, decObj, applyCustomerData, asStr, bind, Except.bind]

/-- Decoding step through the `last_name` field. -/
theorem stepCD11 (acc : CustomerData) (v : String) (rest : List (String × Jx)) :
    decObj applyCustomerData acc (oStr "last_name" v rest) =
      decObj applyCustomerData { acc with LastName := if v = "" then acc.LastName else v } rest := by
  by_cases hv : v = "" <;> simp [oStr, hv, decObj, applyCustomerData, asStr, bind, Except.bind]

/-- Decoding step through the `patronym` field. -/
theorem stepCD12 (acc : CustomerData) (v : String) (rest : List (String × Jx)) :
    decObj applyCustomerData acc (oStr "patronym" v rest) =
      decObj applyCustomerData { acc with Patronym := if v = "" then acc.Patronym else v } rest := by
  by_cases hv : v = "" <;> simp [oStr, hv, decObj, applyCustomerData, asStr, bind, Except.bind]

/-- Decoding step through the `phone` field. -/
theorem stepCD13 (acc : CustomerData) (v : String) (rest : List (String × Jx)) :
    decObj applyCustomerData acc (oStr "phone" v rest) =
      decObj applyCustomerData { acc with Phone := if v = "" then acc.Phone else v } rest := by
  by_cases hv : v = "" <;> simp [oStr, hv, decObj, applyCustomerData, asStr, bind, Except.bind]

/-- Decoding step through the `postal_code` field. -/
theorem stepCD14 (acc : CustomerData) (v : String) (rest : List (String × Jx)) :
    decObj applyCustomerData acc (oStr "postal_code" v rest) =
      decObj applyCustomerData { acc with PostalCode := if v = "" then acc.PostalCode else v } rest := by
  by_cases hv : v = "" <;> simp [oStr, hv, decObj, applyCustomerData, asStr, bind, Except.bind]

/-- Decoding step through the `callback_url` field. -/
theorem stepCPS1 (acc : CreatePaymentSchema) (v : String) (rest : List (String × Jx)) :
    decObj applyCPS acc (oStr "callback_url" v rest) =
      decObj applyCPS { acc with CallbackURL := if v = "" then acc.CallbackURL else v } rest := by
  by_cases hv : v = "" <;> simp [oStr, hv, decObj, applyCPS, asStr, bind, Except.bind]

/-- Decoding step through the `result_url` field. -/
theorem stepCPS2 (acc : CreatePaymentSchema) (v : String) (rest : List (String × Jx)) :
    decObj applyCPS acc (oStr "result_url" v rest) =
      decObj applyCPS { acc with ResultURL := if v = "" then acc.ResultURL else v } rest := by
  by_cases hv : v = "" <;> simp [oStr, hv, decObj, applyCPS, asStr, bind, Except.bind]

/-- Decoding step through the `confirm` field. -/
theorem stepCPS3 (acc : CreatePaymentSchema) (v : Bool) (rest : List (String × Jx)) :
    decObj applyCPS acc (oBool "confirm" v rest) =
      decObj applyCPS { acc with Confirm := if v = true then v else acc.Confirm } rest := by
  by_cases hv : v = true <;> simp [oBool, hv, decObj, applyCPS, asBool, bind, Except.bind]

/-- Decoding step through the `description` field. -/
theorem stepCPS4 (acc : CreatePaymentSchema) (v : String) (rest : List (String × Jx)) :
    decObj applyCPS acc (oStr "description" v rest) =
      decObj applyCPS { acc with Description := if v = "" then acc.Description else v } rest := by
  by_cases hv : v = "" <;> simp [oStr, hv, decObj, applyCPS, asStr, bind, Except.bind]

/-- Decoding step through the `payload` field. -/
theorem stepCPS5 (acc : CreatePaymentSchema) (v : String) (rest : List (String × Jx)) :
    decObj applyCPS acc (oStr "payload" v rest) =
      decObj applyCPS { acc with Payload := if v = "" then acc.Payload else v } rest := by
  by_cases hv : v = "" <;> simp [oStr, hv, decObj, applyCPS, asStr, bind, Except.bind]

/-- Decoding step through the `amount` field. -/
theorem stepConf1 (acc : ConfirmPaymentSchema) (v : F64) (rest : List (String × Jx)) :
    decObj applyConfirm acc (oNum "amount" v rest) =
      decObj applyConfirm { acc with Amount := if v.isZero = true then acc.Amount else v } rest := by
  by_cases hv : v.isZero = true <;> simp [oNum, hv, decObj, applyConfirm, asNum, bind, Except.bind]

/-- Decoding step through the `callback_url` field. -/
theorem stepConf2 (acc : ConfirmPaymentSchema) (v : String) (rest : List (String × Jx)) :
    decObj applyConfirm acc (oStr "callback_url" v rest) =
      decObj applyConfirm { acc with CallbackURL := if v = "" then acc.CallbackURL else v } rest := by
  by_cases hv : v = "" <;> simp [oStr, hv, decObj, applyConfirm, asStr, bind, Except.bind]

/-- Decoding step through the `currency` field. -/
theorem stepConf3 (acc : ConfirmPaymentSchema) (v : String) (rest : List (String × Jx)) :
    decObj applyConfirm acc (oStr "currency" v rest) =
      decObj applyConfirm { acc with Currency := if v = "" then acc.Currency else v } rest := by
  by_cases hv : v = "" <;> simp [oStr, hv, decObj, applyConfirm, asStr, bind, Except.bind]

/-- Decoding step through the `payload` field. -/
theorem stepConf4 (acc : ConfirmPaymentSchema) (v : String) (rest : List (String × Jx)) :
    decObj applyConfirm acc (oStr "payload" v rest) =
      decObj applyConfirm { acc with Payload := if v = "" then acc.Payload else v } rest := by
  by_cases hv : v = "" <;> simp [oStr, hv, decObj, applyConfirm, asStr, bind, Except.bind]

/-- Decoding step through the `amount` field. -/
theorem stepCanc1 (acc : CancelPaymentSchema) (v : F64) (rest : List (String × Jx)) :
    decObj applyCancel acc (oNum "amount" v rest) =
      decObj applyCancel { acc with Amount := if v.isZero = true then acc.Amount else v } rest := by
  by_cases hv : v.isZero = true <;> simp [oNum, hv, decObj, applyCancel, asNum, bind, Except.bind]

/-- Decoding step through the `callback_url` field. -/
theorem stepCanc2 (acc : CancelPaymentSchema) (v : String) (rest : List (String × Jx)) :
    decObj applyCancel acc (oStr "callback_url" v rest) =
      decObj applyCancel { acc with CallbackURL := if v = "" then acc.CallbackURL else v } rest := by
  by_cases hv : v = "" <;> simp [oStr, hv, decObj, applyCancel, asStr, bind, Except.bind]

/-- Decoding step through the `currency` field. -/
theorem stepCanc3 (acc : CancelPaymentSchema) (v : String) (rest : List (String × Jx)) :
    decObj applyCancel acc (oStr "currency" v rest) =
      decObj applyCancel { acc with Currency := if v = "" then acc.Currency else v } rest := by
  by_cases hv : v = "" <;> simp [oStr, hv, decObj, applyCancel, asStr, bind, Except.bind]

/-- Decoding step through the `payload` field. -/
theorem stepCanc4 (acc : CancelPaymentSchema) (v : String) (rest : List (String × Jx)) :
    decObj applyCancel acc (oStr "payload" v rest) =
      decObj applyCancel { acc with Payload := if v = "" then acc.Payload else v } rest := by
  by_cases hv : v = "" <;> simp [oStr, hv, decObj, applyCancel, asStr, bind, Except.bind]

/-- Decoding step through the `amount` field. -/
theorem stepRefu1 (acc : RefundPaymentSchema) (v : F64) (rest : List (String × Jx)) :
    decObj applyRefund acc (oNum "amount" v rest) =
      decObj applyRefund { acc with Amount := if v.isZero = true then acc.Amount else v } rest := by
  by_cases hv : v.isZero = true <;> simp [oNum, hv, decObj, applyRefund, asNum, bind, Except.bind]

/-- Decoding step through the `callback_url` field. -/
theorem stepRefu2 (acc : RefundPaymentSchema) (v : String) (rest : List (String × Jx)) :
    decObj applyRefund acc (oStr "callback_url" v rest) =
      decObj applyRefund { acc with CallbackURL := if v = "" then acc.CallbackURL else v } rest := by
  by_cases hv : v = "" <;> simp [oStr, hv, decObj, applyRefund, asStr, bind, Except.bind]

/-- Decoding step through the `currency` field. -/
theorem stepRefu3 (acc : RefundPaymentSchema) (v : String) (rest : List (String × Jx)) :
    decObj applyRefund acc (oStr "currency" v rest) =
      decObj applyRefund { acc with Currency := if v = "" then acc.Currency else v } rest := by
  by_cases hv : v = "" <;> simp [oStr, hv, decObj, applyRefund, asStr, bind, Except.bind]

/-- Decoding step through the `payload` field. -/
theorem stepRefu4 (acc : RefundPaymentSchema) (v : String) (rest : List (String × Jx)) :
    decObj applyRefund acc (oStr "payload" v rest) =
      decObj applyRefund { acc with Payload := if v = "" then acc.Payload else v } rest := by
  by_cases hv : v = "" <;> simp [oStr, hv, decObj, applyRefund, asStr, bind, Except.bind]


/-- The empty-object decoding step. -/
theorem decObj_nil {α : Type} (applyF : α → String × Jx → Except Unit α)
    (acc : α) : decObj applyF acc [] = .ok acc := rfl

/-- `Product` field-list round trip (floats must not be negative zero). -/
theorem rtProductFields (p : Product) (h1 : p.NetAmount.bits ≠ 2 ^ 63)
    (h2 : p.VATAmount.bits ≠ 2 ^ 63) :
    decObj applyProduct defProduct (encProductFields p) = .ok p := by
  simp [encProductFields, stepProd1, stepProd2, stepProd3, stepProd4, stepProd5,
        stepProd6, stepProd7, stepProd8, stepProd9, stepProd10, ite_empty_self,
        f64_ite_zero _ h1, f64_ite_zero _ h2, defProduct, decObj]

/-- `Product` round trip through a slice-element position. -/
theorem rtProduct (p : Product) (h1 : p.NetAmount.bits ≠ 2 ^ 63)
    (h2 : p.VATAmount.bits ≠ 2 ^ 63) :
    decodeProduct (Jx.obj (encProductFields p)) = .ok p := by
  simp [decodeProduct, rtProductFields p h1 h2]

/-- Round trip of a whole product slice. -/
theorem rtProducts (ps : List Product) (h : ∀ p ∈ ps, ValidProduct p) :
    decodeList decodeProduct (ps.map fun p => Jx.obj (encProductFields p)) =
      Except.ok ps := by
  induction ps with
  | nil => simp; rfl
  | cons p qs ih =>
    obtain ⟨⟨_, h1⟩, _, h2⟩ := h p (by simp)
    simp [decodeList, rtProduct p h1 h2,
          ih fun q hq => h q (by simp [hq]), bind, Except.bind, pure, Except.pure]

/-- `Recipient` serialization round trip. -/
theorem rtRecipient (r : Recipient) :
    decObj applyRecipient defRecipient (encRecipientFields r) = .ok r := by
  simp [encRecipientFields, stepRec1, stepRec2, stepRec3, stepRec4, stepRec5,
        stepRec6, stepRec7, stepRec8, stepRec9, stepRec10, ite_empty_self,
        defRecipient, decObj, applyRecipient, rtPaymentMethodAsObj,
        bind, Except.bind]

/-- `CustomerData` serialization round trip. -/
theorem rtCustomerData (c : CustomerData) :
    decObj applyCustomerData defCustomerData (encCustomerDataFields c) = .ok c := by
  simp [encCustomerDataFields, stepCD1, stepCD2, stepCD3, stepCD4, stepCD5,
        stepCD6, stepCD7, stepCD8, stepCD9, stepCD10, stepCD11, stepCD12,
        stepCD13, stepCD14, ite_empty_self, defCustomerData, decObj,
        applyCustomerData, rtPaymentMethodAsObj, bind, Except.bind]

/-- Decoding step through the plain `amount` field. -/
theorem stepCPS_amount (acc : CreatePaymentSchema) (x : F64)
    (rest : List (String × Jx)) :
    decObj applyCPS acc (("amount", Jx.num x) :: rest) =
      decObj applyCPS { acc with Amount := x } rest := by
  simp [decObj, applyCPS, asNum, bind, Except.bind]

/-- Decoding step through the plain `currency` field. -/
theorem stepCPS_currency (acc : CreatePaymentSchema) (v : String)
    (rest : List (String × Jx)) :
    decObj applyCPS acc (("currency", Jx.str v) :: rest) =
      decObj applyCPS { acc with Currency := v } rest := by
  simp [decObj, applyCPS, asStr, bind, Except.bind]

/-- Decoding step through the plain `external_id` field. -/
theorem stepCPS_external (acc : CreatePaymentSchema) (v : String)
    (rest : List (String × Jx)) :
    decObj applyCPS acc (("external_id", Jx.str v) :: rest) =
      decObj applyCPS { acc with ExternalID := v } rest := by
  simp [decObj, applyCPS, asStr, bind, Except.bind]

/-- Decoding step through the plain `mode` field. -/
theorem stepCPS_mode (acc : CreatePaymentSchema) (v : String)
    (rest : List (String × Jx)) :
    decObj applyCPS acc (("mode", Jx.str v) :: rest) =
      decObj applyCPS { acc with Mode := v } rest := by
  simp [decObj, applyCPS, asStr, bind, Except.bind]

/-- Decoding step through the plain pointer-valued `customer` field. -/
theorem stepCPS_customer (acc : CreatePaymentSchema) (co : Option CustomerData)
    (rest : List (String × Jx)) (hacc : acc.Customer = none) :
    decObj applyCPS acc (("customer", encOptObj encCustomerDataFields co) :: rest) =
      decObj applyCPS { acc with Customer := co } rest := by
  cases co with
  | none =>
    have h2 : { acc with Customer := (none : Option CustomerData) } = acc := by
      rcases acc; simp_all
    simp [decObj, applyCPS, encOptObj, h2, bind, Except.bind]
  | some c =>
    simp [decObj, applyCPS, encOptObj, hacc, rtCustomerData, bind, Except.bind]

/-- Decoding step through the `omitempty` slice field `products`. -/
theorem stepCPS_products (acc : CreatePaymentSchema) (ps : List Product)
    (rest : List (String × Jx)) (hacc : acc.Products = [])
    (hm : decodeList decodeProduct (ps.map fun p => Jx.obj (encProductFields p)) =
      Except.ok ps) :
    decObj applyCPS acc
        (oArr "products" (ps.map fun p => Jx.obj (encProductFields p)) rest) =
      decObj applyCPS { acc with Products := ps } rest := by
  cases ps with
  | nil =>
    have h2 : { acc with Products := ([] : List Product) } = acc := by
      rcases acc; simp_all
    simp [oArr, h2]
  | cons p qs =>
    rw [List.map_cons] at hm
    simp [oArr, decObj, applyCPS, hm, bind, Except.bind]

/-- Decoding step through the `omitempty` pointer field `recipient`. -/
theorem stepCPS_recipient (acc : CreatePaymentSchema) (ro : Option Recipient)
    (rest : List (String × Jx)) (hacc : acc.Recipient = none) :
    decObj applyCPS acc
        (oOpt "recipient" (ro.map fun r => Jx.obj (encRecipientFields r)) rest) =
      decObj applyCPS { acc with Recipient := ro } rest := by
  cases ro with
  | none =>
    have h2 : { acc with Recipient := (none : Option Recipient) } = acc := by
      rcases acc; simp_all
    simp [oOpt, h2]
  | some r =>
    simp [oOpt, decObj, applyCPS, hacc, rtRecipient, bind, Except.bind]

/-- Round trip of the entries of a `map[string]string`. -/
theorem propsMapM (ps : List (String × String)) :
    decodeProps (ps.map fun kv => (kv.1, Jx.str kv.2)) = Except.ok ps := by
  induction ps with
  | nil => simp; rfl
  | cons q qs ih =>
    simp [decodeProps, asStr, ih, bind, Except.bind, pure, Except.pure]

/-- Decoding step through the `omitempty` map field `properties`. -/
theorem stepCPS_properties (acc : CreatePaymentSchema)
    (ps : List (String × String)) (rest : List (String × Jx))
    (hacc : acc.Properties = []) :
    decObj applyCPS acc (oProps "properties" ps rest) =
      decObj applyCPS { acc with Properties := ps } rest := by
  cases ps with
  | nil =>
    have h2 : { acc with Properties := ([] : List (String × String)) } = acc := by
      rcases acc; simp_all
    simp [oProps, h2]
  | cons q qs =>
    have hp := propsMapM (q :: qs)
    rw [List.map_cons] at hp
    simp [oProps, decObj, applyCPS, hacc, hp, bind, Except.bind]

/-- `CreatePaymentSchema` field-list round trip. -/
theorem rtCPSFields (s : CreatePaymentSchema) (h : ValidCreatePayment s) :
    decObj applyCPS defCreatePaymentSchema (encCreatePaymentFields s) = .ok s := by
  obtain ⟨hfin, hprod, hcanon⟩ := h
  have hm := rtProducts s.Products hprod
  simp [encCreatePaymentFields, stepCPS_amount, stepCPS_currency,
        stepCPS_external, stepCPS_mode, stepCPS1, stepCPS2, stepCPS3, stepCPS4,
        stepCPS5, stepCPS_customer, stepCPS_products, stepCPS_recipient,
        stepCPS_properties, hm, ite_empty_self, ite_false_self,
        defCreatePaymentSchema, decObj_nil]

/-- Decoding step through the plain `external_id` field of a confirm
schema. -/
theorem stepConf0 (acc : ConfirmPaymentSchema) (v : String)
    (rest : List (String × Jx)) :
    decObj applyConfirm acc (("external_id", Jx.str v) :: rest) =
      decObj applyConfirm { acc with ExternalID := v } rest := by
  simp [decObj, applyConfirm, asStr, bind, Except.bind]

/-- `ConfirmPaymentSchema` field-list round trip. -/
theorem rtConfirmFields (c : ConfirmPaymentSchema)
    (h : c.Amount.bits ≠ 2 ^ 63) :
    decObj applyConfirm defConfirmPaymentSchema (encConfirmFields c) = .ok c := by
  simp [encConfirmFields, stepConf0, stepConf1, stepConf2, stepConf3, stepConf4,
        ite_empty_self, f64_ite_zero _ h, defConfirmPaymentSchema, decObj_nil]

/-- Decoding step through the plain `external_id` field of a cancel
schema. -/
theorem stepCanc0 (acc : CancelPaymentSchema) (v : String)
    (rest : List (String × Jx)) :
    decObj applyCancel acc (("external_id", Jx.str v) :: rest) =
      decObj applyCancel { acc with ExternalID := v } rest := by
  simp [decObj, applyCancel, asStr, bind, Except.bind]

/-- `CancelPaymentSchema` field-list round trip. -/
theorem rtCancelFields (c : CancelPaymentSchema)
    (h : c.Amount.bits ≠ 2 ^ 63) :
    decObj applyCancel defCancelPaymentSchema (encCancelFields c) = .ok c := by
  simp [encCancelFields, stepCanc0, stepCanc1, stepCanc2, stepCanc3, stepCanc4,
        ite_empty_self, f64_ite_zero _ h, defCancelPaymentSchema, decObj_nil]

/-- Decoding step through the plain `external_id` field of a refund
schema. -/
theorem stepRefu0 (acc : RefundPaymentSchema) (v : String)
    (rest : List (String × Jx)) :
    decObj applyRefund acc (("external_id", Jx.str v) :: rest) =
      decObj applyRefund { acc with ExternalID := v } rest := by
  simp [decObj, applyRefund, asStr, bind, Except.bind]

/-- `RefundPaymentSchema` field-list round trip. -/
theorem rtRefundFields (c : RefundPaymentSchema)
    (h : c.Amount.bits ≠ 2 ^ 63) :
    decObj applyRefund defRefundPaymentSchema (encRefundFields c) = .ok c := by
  simp [encRefundFields, stepRefu0, stepRefu1, stepRefu2, stepRefu3, stepRefu4,
        ite_empty_self, f64_ite_zero _ h, defRefundPaymentSchema, decObj_nil]

/-- `PaymentCallbackResendSchema` round trip. -/
theorem rtResend (s : PaymentCallbackResendSchema) :
    decodeResendSchema (.obj
      [("external_id", .str s.ExternalID), ("operation", .str s.Operation)]) =
      .ok s := by
  simp [decodeResendSchema, decObj, applyResend, asStr,
        defPaymentCallbackResendSchema, bind, Except.bind]

/-- `AddWalletCustomerSchema` round trip. -/
theorem rtAddWallet (s : AddWalletCustomerSchema) :
    decodeAddWalletSchema (.obj
      [("callback_url", .str s.CallbackURL),
       ("result_url", .str s.ResultURL),
       ("payment_method", .obj (encPaymentMethodFields s.PaymentMethod))]) =
      .ok s := by
  simp [decodeAddWalletSchema, decObj, applyAddWallet, asStr,
        defAddWalletCustomerSchema, rtPaymentMethodAsObj, bind, Except.bind]

/-- `DeleteWalletCustomerSchema` round trip. -/
theorem rtDeleteWallet (s : DeleteWalletCustomerSchema) :
    decodeDeleteWalletSchema (.obj
      [("option_id", .str s.OptionID), ("type", .str s.type)]) = .ok s := by
  simp [decodeDeleteWalletSchema, decObj, applyDeleteWallet, asStr,
        defDeleteWalletCustomerSchema, bind, Except.bind]

/-- `PaymentUserAction` round trip. -/
theorem rtAction (a : PaymentUserAction) :
    decObj applyAction defPaymentUserAction (encActionFields a) = .ok a := by
  simp [encActionFields, decObj, applyAction, asStr, defPaymentUserAction,
        bind, Except.bind]

/-- `PaymentUserAction` round trip through a struct-typed position. -/
theorem rtActionAsObj (a : PaymentUserAction) :
    asObj applyAction (Jx.obj (encActionFields a)) defPaymentUserAction = .ok a := by
  simp [asObj, rtAction]

/-- `PaymentResponseDetailsProperties` round trip. -/
theorem rtDetailsProps (p : PaymentResponseDetailsProperties) :
    decObj applyDetailsProps defDetailsProperties (encDetailsPropsFields p) =
      .ok p := by
  simp [encDetailsPropsFields, decObj, applyDetailsProps, asStr,
        defDetailsProperties, bind, Except.bind]

/-- `PaymentResponseDetailsProperties` round trip through a field. -/
theorem rtDetailsPropsAsObj (p : PaymentResponseDetailsProperties) :
    asObj applyDetailsProps (Jx.obj (encDetailsPropsFields p))
      defDetailsProperties = .ok p := by
  simp [asObj, rtDetailsProps]

/-- `PaymentResponseDetailsFee` round trip. -/
theorem rtFee (f : PaymentResponseDetailsFee) :
    decObj applyFee defDetailsFee (encFeeFields f) = .ok f := by
  simp [encFeeFields, decObj, applyFee, asStr, defDetailsFee, bind, Except.bind]

/-- `PaymentResponseDetailsFee` round trip through a field. -/
theorem rtFeeAsObj (f : PaymentResponseDetailsFee) :
    asObj applyFee (Jx.obj (encFeeFields f)) defDetailsFee = .ok f := by
  simp [asObj, rtFee]

/-- Decoding step through the plain `amount` field. -/
theorem stepDet1 (acc : PaymentResponseDetails) (v : String) (rest : List (String × Jx)) :
    decObj applyDetails acc (("amount", Jx.str v) :: rest) =
      decObj applyDetails { acc with Amount := v } rest := by
  simp [decObj, applyDetails, asStr, bind, Except.bind]

/-- Decoding step through the plain `billing_order_id` field. -/
theorem stepDet2 (acc : PaymentResponseDetails) (v : String) (rest : List (String × Jx)) :
    decObj applyDetails acc (("billing_order_id", Jx.str v) :: rest) =
      decObj applyDetails { acc with BillingOrderID := v } rest := by
  simp [decObj, applyDetails, asStr, bind, Except.bind]

/-- Decoding step through the plain `created_at` time field. -/
theorem stepDet3 (acc : PaymentResponseDetails) (v : String) (rest : List (String × Jx)) :
    decObj applyDetails acc (("created_at", Jx.str v) :: rest) =
      decObj applyDetails { acc with CreatedAt := ⟨v⟩ } rest := by
  simp [decObj, applyDetails, asTime, bind, Except.bind]

/-- Decoding step through the plain `currency` field. -/
theorem stepDet4 (acc : PaymentResponseDetails) (v : String) (rest : List (String × Jx)) :
    decObj applyDetails acc (("currency", Jx.str v) :: rest) =
      decObj applyDetails { acc with Currency := v } rest := by
  simp [decObj, applyDetails, asStr, bind, Except.bind]

/-- Decoding step through the plain `description` field. -/
theorem stepDet5 (acc : PaymentResponseDetails) (v : String) (rest : List (String × Jx)) :
    decObj applyDetails acc (("description", Jx.str v) :: rest) =
      decObj applyDetails { acc with Description := v } rest := by
  simp [decObj, applyDetails, asStr, bind, Except.bind]

/-- Decoding step through the plain `gateway_order_id` field. -/
theorem stepDet6 (acc : PaymentResponseDetails) (v : String) (rest : List (String × Jx)) :
    decObj applyDetails acc (("gateway_order_id", Jx.str v) :: rest) =
      decObj applyDetails { acc with GatewayOrderID := v } rest := by
  simp [decObj, applyDetails, asStr, bind, Except.bind]

/-- Decoding step through the plain `payload` field. -/
theorem stepDet7 (acc : PaymentResponseDetails) (v : String) (rest : List (String × Jx)) :
    decObj applyDetails acc (("payload", Jx.str v) :: rest) =
      decObj applyDetails { acc with Payload := v } rest := by
  simp [decObj, applyDetails, asStr, bind, Except.bind]

/-- Decoding step through the plain `payment_id` field. -/
theorem stepDet8 (acc : PaymentResponseDetails) (v : String) (rest : List (String × Jx)) :
    decObj applyDetails acc (("payment_id", Jx.str v) :: rest) =
      decObj applyDetails { acc with PaymentID := v } rest := by
  simp [decObj, applyDetails, asStr, bind, Except.bind]

/-- Decoding step through the plain `processed_at` time field. -/
theorem stepDet9 (acc : PaymentResponseDetails) (v : String) (rest : List (String × Jx)) :
    decObj applyDetails acc (("processed_at", Jx.str v) :: rest) =
      decObj applyDetails { acc with ProcessedAt := ⟨v⟩ } rest := by
  simp [decObj, applyDetails, asTime, bind, Except.bind]

/-- Decoding step through the plain struct-valued `properties` field. -/
theorem stepDet10 (acc : PaymentResponseDetails) (j : Jx) (y : PaymentResponseDetailsProperties)
    (rest : List (String × Jx)) (hd : asObj applyDetailsProps j acc.Properties = .ok y) :
    decObj applyDetails acc (("properties", j) :: rest) =
      decObj applyDetails { acc with Properties := y } rest := by
  simp [decObj, applyDetails, hd, bind, Except.bind]

/-- Decoding step through the plain `rrn` field. -/
theorem stepDet11 (acc : PaymentResponseDetails) (v : String) (rest : List (String × Jx)) :
    decObj applyDetails acc (("rrn", Jx.str v) :: rest) =
      decObj applyDetails { acc with RRN := v } rest := by
  simp [decObj, applyDetails, asStr, bind, Except.bind]

/-- Decoding step through the plain `status` field. -/
theorem stepDet12 (acc : PaymentResponseDetails) (v : String) (rest : List (String × Jx)) :
    decObj applyDetails acc (("status", Jx.str v) :: rest) =
      decObj applyDetails { acc with Status := v } rest := by
  simp [decObj, applyDetails, asStr, bind, Except.bind]

/-- Decoding step through the plain `status_code` field. -/
theorem stepDet13 (acc : PaymentResponseDetails) (v : String) (rest : List (String × Jx)) :
    decObj applyDetails acc (("status_code", Jx.str v) :: rest) =
      decObj applyDetails { acc with StatusCode := v } rest := by
  simp [decObj, applyDetails, asStr, bind, Except.bind]

/-- Decoding step through the plain `status_description` field. -/
theorem stepDet14 (acc : PaymentResponseDetails) (v : String) (rest : List (String × Jx)) :
    decObj applyDetails acc (("status_description", Jx.str v) :: rest) =
      decObj applyDetails { acc with StatusDescription := v } rest := by
  simp [decObj, applyDetails, asStr, bind, Except.bind]

/-- Decoding step through the plain `transaction_id` field. -/
theorem stepDet15 (acc : PaymentResponseDetails) (v : String) (rest : List (String × Jx)) :
    decObj applyDetails acc (("transaction_id", Jx.str v) :: rest) =
      decObj applyDetails { acc with TransactionID := v } rest := by
  simp [decObj, applyDetails, asStr, bind, Except.bind]

/-- Decoding step through the plain `auth_code` field. -/
theorem stepDet16 (acc : PaymentResponseDetails) (v : String) (rest : List (String × Jx)) :
    decObj applyDetails acc (("auth_code", Jx.str v) :: rest) =
      decObj applyDetails { acc with AuthCode := v } rest := by
  simp [decObj, applyDetails, asStr, bind, Except.bind]

/-- Decoding step through the plain struct-valued `fee` field. -/
theorem stepDet17 (acc : PaymentResponseDetails) (j : Jx) (y : PaymentResponseDetailsFee)
    (rest : List (String × Jx)) (hd : asObj applyFee j acc.Fee = .ok y) :
    decObj applyDetails acc (("fee", j) :: rest) =
      decObj applyDetails { acc with Fee := y } rest := by
  simp [decObj, applyDetails, hd, bind, Except.bind]

/-- Decoding step through the plain `terminal_name` field. -/
theorem stepDet18 (acc : PaymentResponseDetails) (v : String) (rest : List (String × Jx)) :
    decObj applyDetails acc (("terminal_name", Jx.str v) :: rest) =
      decObj applyDetails { acc with TerminalName := v } rest := by
  simp [decObj, applyDetails, asStr, bind, Except.bind]

/-- Decoding step through the plain `id` field. -/
theorem stepPR1 (acc : PaymentResponse) (v : String) (rest : List (String × Jx)) :
    decObj applyPaymentResponse acc (("id", Jx.str v) :: rest) =
      decObj applyPaymentResponse { acc with ID := v } rest := by
  simp [decObj, applyPaymentResponse, asStr, bind, Except.bind]

/-- Decoding step through the plain struct-valued `action` field. -/
theorem stepPR2 (acc : PaymentResponse) (j : Jx) (y : PaymentUserAction)
    (rest : List (String × Jx)) (hd : asObj applyAction j acc.Action = .ok y) :
    decObj applyPaymentResponse acc (("action", j) :: rest) =
      decObj applyPaymentResponse { acc with Action := y } rest := by
  simp [decObj, applyPaymentResponse, hd, bind, Except.bind]

/-- Decoding step through the plain `action_required` bool field. -/
theorem stepPR3 (acc : PaymentResponse) (v : Bool) (rest : List (String × Jx)) :
    decObj applyPaymentResponse acc (("action_required", Jx.bool v) :: rest) =
      decObj applyPaymentResponse { acc with ActionRequired := v } rest := by
  simp [decObj, applyPaymentResponse, asBool, bind, Except.bind]

/-- Decoding step through the plain struct-valued `details` field. -/
theorem stepPR4 (acc : PaymentResponse) (j : Jx) (y : PaymentResponseDetails)
    (rest : List (String × Jx)) (hd : asObj applyDetails j acc.Details = .ok y) :
    decObj applyPaymentResponse acc (("details", j) :: rest) =
      decObj applyPaymentResponse { acc with Details := y } rest := by
  simp [decObj, applyPaymentResponse, hd, bind, Except.bind]

/-- Decoding step through the plain `external_id` field. -/
theorem stepPR5 (acc : PaymentResponse) (v : String) (rest : List (String × Jx)) :
    decObj applyPaymentResponse acc (("external_id", Jx.str v) :: rest) =
      decObj applyPaymentResponse { acc with ExternalID := v } rest := by
  simp [decObj, applyPaymentResponse, asStr, bind, Except.bind]

/-- Decoding step through the plain `is_success` bool field. -/
theorem stepPR6 (acc : PaymentResponse) (v : Bool) (rest : List (String × Jx)) :
    decObj applyPaymentResponse acc (("is_success", Jx.bool v) :: rest) =
      decObj applyPaymentResponse { acc with IsSuccess := v } rest := by
  simp [decObj, applyPaymentResponse, asBool, bind, Except.bind]

/-- Decoding step through the plain `receipt_url` field. -/
theorem stepPR7 (acc : PaymentResponse) (v : String) (rest : List (String × Jx)) :
    decObj applyPaymentResponse acc (("receipt_url", Jx.str v) :: rest) =
      decObj applyPaymentResponse { acc with ReceiptURL := v } rest := by
  simp [decObj, applyPaymentResponse, asStr, bind, Except.bind]

/-- Decoding step through the plain struct-valued `payment_method` field. -/
theorem stepPR8 (acc : PaymentResponse) (j : Jx) (y : PaymentMethod)
    (rest : List (String × Jx)) (hd : asObj applyPaymentMethod j acc.PaymentMethod = .ok y) :
    decObj applyPaymentResponse acc (("payment_method", j) :: rest) =
      decObj applyPaymentResponse { acc with PaymentMethod := y } rest := by
  simp [decObj, applyPaymentResponse, hd, bind, Except.bind]

/-- Decoding step through the plain struct-valued `customer` field. -/
theorem stepPR9 (acc : PaymentResponse) (j : Jx) (y : PaymentResponseCustomer)
    (rest : List (String × Jx)) (hd : asObj applyRespCustomer j acc.Customer = .ok y) :
    decObj applyPaymentResponse acc (("customer", j) :: rest) =
      decObj applyPaymentResponse { acc with Customer := y } rest := by
  simp [decObj, applyPaymentResponse, hd, bind, Except.bind]

/-- `PaymentResponseDetails` round trip. -/
theorem rtDetails (d : PaymentResponseDetails) :
    decObj applyDetails defDetails (encDetailsFields d) = .ok d := by
  simp [encDetailsFields, stepDet1, stepDet2, stepDet3, stepDet4, stepDet5,
        stepDet6, stepDet7, stepDet8, stepDet9, stepDet10, stepDet11,
        stepDet12, stepDet13, stepDet14, stepDet15, stepDet16, stepDet17,
        stepDet18, rtDetailsPropsAsObj, rtFeeAsObj, defDetails, decObj_nil]

/-- `PaymentResponseDetails` round trip through a field. -/
theorem rtDetailsAsObj (d : PaymentResponseDetails) :
    asObj applyDetails (Jx.obj (encDetailsFields d)) defDetails = .ok d := by
  simp [asObj, rtDetails]

/-- `PaymentResponseCustomer` round trip. -/
theorem rtRespCustomer (c : PaymentResponseCustomer) :
    decObj applyRespCustomer defRespCustomer (encRespCustomerFields c) = .ok c := by
  simp [encRespCustomerFields, decObj, applyRespCustomer, asStr,
        defRespCustomer, bind, Except.bind]

/-- `PaymentResponseCustomer` round trip through a field. -/
theorem rtRespCustomerAsObj (c : PaymentResponseCustomer) :
    asObj applyRespCustomer (Jx.obj (encRespCustomerFields c)) defRespCustomer =
      .ok c := by
  simp [asObj, rtRespCustomer]

/-- `PaymentResponse` field-list round trip. -/
theorem rtPaymentResponseFields (r : PaymentResponse) :
    decObj applyPaymentResponse defPaymentResponse (encPaymentResponseFields r) =
      .ok r := by
  simp [encPaymentResponseFields, stepPR1, stepPR2, stepPR3, stepPR4, stepPR5,
        stepPR6, stepPR7, stepPR8, stepPR9, rtActionAsObj, rtDetailsAsObj,
        rtPaymentMethodAsObj, rtRespCustomerAsObj, defPaymentResponse,
        decObj_nil]

/-- `PaymentResponse` round trip through the nil-pointer decoder. -/
theorem rtPaymentResponsePtr (r : PaymentResponse) :
    decodePaymentResponsePtr (encodePaymentResponse r) = .ok (some r) := by
  simp [decodePaymentResponsePtr, encodePaymentResponse,
        rtPaymentResponseFields, bind, Except.bind]

/-- `ErrorResponse` round trip through the nil-pointer decoder. -/
theorem rtErrorResponse (e : ErrorResponse) :
    decodeErrorResponsePtr (encodeErrorResponse e) = .ok (some e) := by
  simp [decodeErrorResponsePtr, encodeErrorResponse, decObj, applyER, asStr,
        defErrorResponse, bind, Except.bind]

/-- `fmtAux` copies text that contains no `%`. -/
theorem fmtAux_no_percent (l : List Char) (h : ∀ c ∈ l, c ≠ '%') :
    fmtAux false l = l := by
  induction l with
  | nil => rfl
  | cons c cs ih =>
    have hc : c ≠ '%' := h c (by simp)
    simp [fmtAux, hc, ih fun d hd => h d (by simp [hd])]

/-- `fmt.Errorf` is the identity on format strings without `%`: for every
such gateway status code (in particular every code in the known table) the
error message is exactly the code. -/
theorem fmtErrorf_no_percent (s : String) (h : ∀ c ∈ s.data, c ≠ '%') :
    fmtErrorf s = s := by
  simp [fmtErrorf, fmtAux_no_percent s.data h]

/-- Lookup skips a plain entry with a different key. -/
theorem lookupPairs_cons_ne (k : String) (v : Jx) (rest : List (String × Jx))
    (key : String) (h : ¬ k = key) :
    lookupPairs ((k, v) :: rest) key = lookupPairs rest key := by
  simp [lookupPairs, h]

/-- Lookup skips an `omitempty` string entry with a different key. -/
theorem lookupPairs_oStr_ne (k v : String) (rest : List (String × Jx))
    (key : String) (h : ¬ k = key) :
    lookupPairs (oStr k v rest) key = lookupPairs rest key := by
  by_cases hv : v = "" <;> simp [oStr, hv, lookupPairs, h]

/-- Lookup skips an `omitempty` bool entry with a different key. -/
theorem lookupPairs_oBool_ne (k : String) (b : Bool) (rest : List (String × Jx))
    (key : String) (h : ¬ k = key) :
    lookupPairs (oBool k b rest) key = lookupPairs rest key := by
  cases b <;> simp [oBool, lookupPairs, h]

/-- Lookup skips an `omitempty` float entry with a different key. -/
theorem lookupPairs_oNum_ne (k : String) (x : F64) (rest : List (String × Jx))
    (key : String) (h : ¬ k = key) :
    lookupPairs (oNum k x rest) key = lookupPairs rest key := by
  by_cases hz : x.isZero = true <;> simp [oNum, hz, lookupPairs, h]

/-- Lookup skips an `omitempty` slice entry with a different key. -/
theorem lookupPairs_oArr_ne (k : String) (xs : List Jx) (rest : List (String × Jx))
    (key : String) (h : ¬ k = key) :
    lookupPairs (oArr k xs rest) key = lookupPairs rest key := by
  cases xs <;> simp [oArr, lookupPairs, h]

/-- Lookup skips an `omitempty` pointer entry with a different key. -/
theorem lookupPairs_oOpt_ne (k : String) (v : Option Jx) (rest : List (String × Jx))
    (key : String) (h : ¬ k = key) :
    lookupPairs (oOpt k v rest) key = lookupPairs rest key := by
  cases v <;> simp [oOpt, lookupPairs, h]

/-- Lookup skips an `omitempty` map entry with a different key. -/
theorem lookupPairs_oProps_ne (k : String) (ps : List (String × String))
    (rest : List (String × Jx)) (key : String) (h : ¬ k = key) :
    lookupPairs (oProps k ps rest) key = lookupPairs rest key := by
  cases ps <;> simp [oProps, lookupPairs, h]

/-- An unset `omitempty` string field is absent. -/
theorem lookupPairs_oStr_empty (k : String) (rest : List (String × Jx))
    (key : String) :
    lookupPairs (oStr k "" rest) key = lookupPairs rest key := by
  simp [oStr]

/-- An unset `omitempty` bool field is absent. -/
theorem lookupPairs_oBool_false (k : String) (rest : List (String × Jx))
    (key : String) :
    lookupPairs (oBool k false rest) key = lookupPairs rest key := by
  simp [oBool]

/-- An unset `omitempty` slice field is absent. -/
theorem lookupPairs_oArr_nil (k : String) (rest : List (String × Jx))
    (key : String) :
    lookupPairs (oArr k [] rest) key = lookupPairs rest key := by
  simp [oArr]

/-- An unset `omitempty` pointer field is absent. -/
theorem lookupPairs_oOpt_none (k : String) (rest : List (String × Jx))
    (key : String) :
    lookupPairs (oOpt k none rest) key = lookupPairs rest key := by
  simp [oOpt]

/-- An unset `omitempty` map field is absent. -/
theorem lookupPairs_oProps_nil (k : String) (rest : List (String × Jx))
    (key : String) :
    lookupPairs (oProps k [] rest) key = lookupPairs rest key := by
  simp [oProps]

/-- Lookup in the empty object fails. -/
theorem lookupPairs_nil (key : String) : lookupPairs [] key = none := rfl

/-- A valid product marshals. -/
theorem productMarshalOk (p : Product) (h : ValidProduct p) :
    p.marshalOk = true := by
  obtain ⟨⟨h1, -⟩, h2, -⟩ := h
  simp [Product.marshalOk, h1, h2]

/-- A valid create-payment schema marshals. -/
theorem cpsMarshalOk (s : CreatePaymentSchema) (h : ValidCreatePayment s) :
    s.marshalOk = true := by
  obtain ⟨hfin, hps, -⟩ := h
  simp only [CreatePaymentSchema.marshalOk, hfin, Bool.true_and,
             List.all_eq_true]
  exact fun p hp => productMarshalOk p (hps p hp)

/-- C1 (code bug): for a non-2xx response whose `ErrorResponse` code is the
string `%d`, `Send` returns the gateway error for that code, but the
error's string representation is `%!d(MISSING)`, not `%d`: the source
builds the error with `fmt.Errorf(string(e.Code))`, which interprets the
code as a format string, so the claimed exact identity between the error
string and the code fails for codes containing `%`. -/
theorem claim_C1_errorcode_format_bug :
    (Send false "tok" reqSample
      (fun _ => .response 400 (.json (.obj
        [("code", .str "%d"), ("message", .str "m"), ("param", .str "p"),
         ("payment_id", .str "id1"), ("type", .str "t")])))
      (none : Option (Jx → Except Unit Unit))).1 =
      .fail (GoError.code "%d") ∧
    (GoError.code "%d").message = "%!d(MISSING)" ∧
    "%!d(MISSING)" ≠ "%d" := by
  refine ⟨by decide, by decide, by decide⟩

/-- C2: for every response with status outside `[200, 299]` and a
zero-length body, `Send` fails with the `ErrResponseIsEmpty` sentinel,
whatever the destination decoder — JSON decoding is never reached. -/
theorem claim_C2_empty_body_sentinel {α : Type} (debug : Bool) (auth : String)
    (req : HttpRequest) (status : Int) (v : Option (Jx → Except Unit α))
    (h : status < 200 ∨ 299 < status) :
    (Send debug auth req (fun _ => .response status .empty) v).1 =
      .fail ErrResponseIsEmpty := by
  have hs : (decide (status < 200) || decide (status > 299)) = true := by
    rcases h with h | h <;> simp [h]
  simp [Send, hs]

/-- Witness for C2 at status 400. -/
theorem claim_C2_witness :
    ((400 : Int) < 200 ∨ (299 : Int) < 400) ∧
    (Send false "tok" reqSample (fun _ => .response 400 .empty)
      (none : Option (Jx → Except Unit Unit))).1 = .fail ErrResponseIsEmpty :=
  ⟨Or.inr (by decide),
   claim_C2_empty_body_sentinel false "tok" reqSample 400 none
     (Or.inr (by decide))⟩

/-- C3: `Send` classifies status codes 200–299 (inclusive) as success —
for any such status with a JSON body accepted by the destination decoder it
returns success and the decoded destination — and every other status code
as failure: the outcome is never `ok`. -/
theorem claim_C3_status_classification :
    (∀ (α : Type) (debug : Bool) (auth : String) (req : HttpRequest)
       (status : Int) (j : Jx) (dec : Jx → Except Unit α) (a : α),
       200 ≤ status → status ≤ 299 → dec j = .ok a →
       (Send debug auth req (fun _ => .response status (.json j))
         (some dec)).1 = .ok (some a)) ∧
    (∀ (α : Type) (debug : Bool) (auth : String) (req : HttpRequest)
       (status : Int) (body : Body) (v : Option (Jx → Except Unit α))
       (res : Option α),
       (status < 200 ∨ 299 < status) →
       (Send debug auth req (fun _ => .response status body) v).1 ≠
         .ok res) := by
  constructor
  · intro α debug auth req status j dec a h200 h299 hdec
    have n1 : ¬ (status < 200) := not_lt.mpr h200
    have n2 : ¬ (status > 299) := not_lt.mpr h299
    simp [Send, n1, n2, hdec]
  · intro α debug auth req status body v res h
    have hs : (decide (status < 200) || decide (status > 299)) = true := by
      rcases h with h | h <;> simp [h]
    rcases body with _ | _ | j
    · simp [Send, hs]
    · simp [Send, hs]
    · rcases hd : decodeErrorResponsePtr j with e | o
      · simp [Send, hs, hd]
      · rcases o with _ | er <;> simp [Send, hs, hd]

/-- Witness for C3: success at 204 with a decoded string, failure at 500. -/
theorem claim_C3_witness :
    (Send false "tok" reqSample (fun _ => .response 204 (.json (.str "x")))
      (some fun j => asStr j "")).1 = .ok (some "x") ∧
    (Send false "tok" reqSample (fun _ => .response 500 Body.malformed)
      (none : Option (Jx → Except Unit String))).1 ≠ .ok none :=
  ⟨claim_C3_status_classification.1 String false "tok" reqSample 204
     (.str "x") (fun j => asStr j "") "x" (by decide) (by decide) rfl,
   claim_C3_status_classification.2 String false "tok" reqSample 500
     Body.malformed none none (Or.inr (by decide))⟩

/-- C4: `Send` replaces the request's header map outright with exactly two
entries — the content-type header (spelled `Content-type` in the source)
with value `application/json`, and `Authorization` with `Basic <token>` —
discarding every previously set header, and the dispatched request is
exactly the header-replaced one. -/
theorem claim_C4_header_replacement :
    (∀ (auth : String) (req : HttpRequest),
      (sendHeaders auth req).header =
        [("Content-type", ["application/json"]),
         ("Authorization", ["Basic " ++ auth])] ∧
      (sendHeaders auth req).header.map (fun kv => (lowerStr kv.1, kv.2)) =
        [("content-type", ["application/json"]),
         ("authorization", ["Basic " ++ auth])] ∧
      ∀ h0 : List (String × List String),
        sendHeaders auth { req with header := h0 } = sendHeaders auth req) ∧
    (∀ (α : Type) (debug : Bool) (auth : String) (req : HttpRequest)
       (doReq doReq' : HttpRequest → DoResult) (v : Option (Jx → Except Unit α)),
       doReq (sendHeaders auth req) = doReq' (sendHeaders auth req) →
       Send debug auth req doReq v = Send debug auth req doReq' v) := by
  constructor
  · intro auth req
    have e1 : lowerStr "Content-type" = "content-type" := by decide
    have e2 : lowerStr "Authorization" = "authorization" := by decide
    exact ⟨rfl, by simp [sendHeaders, e1, e2], fun h0 => rfl⟩
  · intro α debug auth req doReq doReq' v hdo
    simp only [Send, hdo]

/-- Witness for C4: concrete header replacement and dispatch through two
transports that agree on the header-replaced request. -/
theorem claim_C4_witness :
    (sendHeaders "t" reqSample).header =
      [("Content-type", ["application/json"]), ("Authorization", ["Basic t"])] ∧
    Send false "t" reqSample (fun _ => .failure)
        (none : Option (Jx → Except Unit Unit)) =
      Send false "t" reqSample
        (fun r => if r.header = [] then .readFailure else .failure) none :=
  ⟨(claim_C4_header_replacement.1 "t" reqSample).1,
   claim_C4_header_replacement.2 Unit false "t" reqSample _ _ none rfl⟩

/-- C5: every string value of the open `code` enum — known or unknown —
deserializes without error and verbatim into an `ErrorResponse`, and every
`ErrorResponse` JSON round-trips unchanged. -/
theorem claim_C5_open_enum_strings :
    (∀ v m p pid t : String,
      decodeErrorResponsePtr
        (.obj [("code", .str v), ("message", .str m), ("param", .str p),
               ("payment_id", .str pid), ("type", .str t)]) =
        .ok (some ⟨v, m, p, pid, t⟩)) ∧
    (∀ e : ErrorResponse,
      decodeErrorResponsePtr (encodeErrorResponse e) = .ok (some e)) := by
  constructor
  · intro v m p pid t
    simp [decodeErrorResponsePtr, decObj, applyER, asStr, defErrorResponse,
          bind, Except.bind]
  · exact rtErrorResponse

/-- C6: `NewConfig` builds the Basic-Auth token as the standard base64 of
the UTF-8 bytes of `login + ":" + password` and points at the fixed
production URL with debug off; `NewDevelopmentConfig` does the same with
the fixed sandbox credentials and debug on. -/
theorem claim_C6_config_construction :
    (∀ login password : String,
      NewConfig login password =
        { API := "https://api.rozetkapay.com/api/"
          BasicAuth := base64Encode (utf8Bytes (login ++ ":" ++ password))
          ResultURL := ""
          CallbackURL := ""
          Debug := false }) ∧
    NewDevelopmentConfig =
      { API := "https://api.rozetkapay.com/api/"
        BasicAuth := base64Encode
          (utf8Bytes ("a6a29002-dc68-4918-bc5d-51a6094b14a8" ++ ":" ++ "XChz3J8qrr"))
        ResultURL := ""
        CallbackURL := ""
        Debug := true } :=
  ⟨fun _ _ => rfl, rfl⟩

/-- The development token computed by the base64 model agrees with the
RFC 4648 encoding of the sandbox credential pair. -/
theorem devBasicAuthValue :
    NewDevelopmentConfig.BasicAuth =
      "YTZhMjkwMDItZGM2OC00OTE4LWJjNWQtNTFhNjA5NGIxNGE4OlhDaHozSjhxcnI=" := by
  decide

/-- C7: for every valid request schema, `NewRequest` marshals the payload
into a body whose JSON decode restores the schema field for field, and
every `omitempty`-tagged field that is unset is absent from the produced
body.  Stated for all seven request schema types; the absence conjuncts are
spelled out for the `CreatePaymentSchema` (which has every `omitempty`
kind) and for the `omitempty` amount of the confirm schema. -/
theorem claim_C7_newrequest_roundtrip :
    (∀ (s : CreatePaymentSchema) (u : String) (q : List (String × String)),
      ValidCreatePayment s →
      ∃ j : Jx, encodeCreatePaymentSchema s = .ok j ∧
        decodeCreatePaymentSchema j = .ok s ∧
        NewRequest encodeCreatePaymentSchema "POST" u (some s) q =
          .ok { method := "POST", url := u, query := q, header := [],
                body := some j } ∧
        (s.CallbackURL = "" → lookupKey j "callback_url" = none) ∧
        (s.ResultURL = "" → lookupKey j "result_url" = none) ∧
        (s.Confirm = false → lookupKey j "confirm" = none) ∧
        (s.Description = "" → lookupKey j "description" = none) ∧
        (s.Payload = "" → lookupKey j "payload" = none) ∧
        (s.Products = [] → lookupKey j "products" = none) ∧
        (s.Recipient = none → lookupKey j "recipient" = none) ∧
        (s.Properties = [] → lookupKey j "properties" = none)) ∧
    (∀ c : ConfirmPaymentSchema, ValidConfirmPayment c →
      ∃ j : Jx, encodeConfirmPaymentSchema c = .ok j ∧
        decodeConfirmPaymentSchema j = .ok c ∧
        (c.Amount.isZero = true → lookupKey j "amount" = none)) ∧
    (∀ c : CancelPaymentSchema, ValidCancelPayment c →
      ∃ j : Jx, encodeCancelPaymentSchema c = .ok j ∧
        decodeCancelPaymentSchema j = .ok c) ∧
    (∀ c : RefundPaymentSchema, ValidRefundPayment c →
      ∃ j : Jx, encodeRefundPaymentSchema c = .ok j ∧
        decodeRefundPaymentSchema j = .ok c) ∧
    (∀ s : PaymentCallbackResendSchema,
      ∃ j : Jx, encodeResendSchema s = .ok j ∧ decodeResendSchema j = .ok s) ∧
    (∀ s : AddWalletCustomerSchema,
      ∃ j : Jx, encodeAddWalletSchema s = .ok j ∧
        decodeAddWalletSchema j = .ok s) ∧
    (∀ s : DeleteWalletCustomerSchema,
      ∃ j : Jx, encodeDeleteWalletSchema s = .ok j ∧
        decodeDeleteWalletSchema j = .ok s) := by
  refine ⟨?_, ?_, ?_, ?_, ?_, ?_, ?_⟩
  · intro s u q hval
    have hok := cpsMarshalOk s hval
    refine ⟨.obj (encCreatePaymentFields s),
      by simp [encodeCreatePaymentSchema, hok],
      by simp [decodeCreatePaymentSchema, rtCPSFields s hval],
      by simp [NewRequest, encodeCreatePaymentSchema, hok, bind, Except.bind],
      ?_, ?_, ?_, ?_, ?_, ?_, ?_, ?_⟩ <;>
      intro hunset <;>
      simp [lookupKey, encCreatePaymentFields, hunset, lookupPairs_cons_ne,
            lookupPairs_oStr_ne, lookupPairs_oBool_ne, lookupPairs_oNum_ne,
            lookupPairs_oArr_ne, lookupPairs_oOpt_ne, lookupPairs_oProps_ne,
            lookupPairs_oStr_empty, lookupPairs_oBool_false,
            lookupPairs_oArr_nil, lookupPairs_oOpt_none,
            lookupPairs_oProps_nil, lookupPairs_nil]
  · intro c hval
    obtain ⟨hzf, hnz⟩ := hval
    have hok : c.marshalOk = true := hzf
    refine ⟨.obj (encConfirmFields c),
      by simp [encodeConfirmPaymentSchema, hok],
      by simp [decodeConfirmPaymentSchema, rtConfirmFields c hnz], ?_⟩
    intro hz
    simp [lookupKey, encConfirmFields, oNum, hz, lookupPairs_cons_ne,
          lookupPairs_oStr_ne, lookupPairs_nil]
  · intro c hval
    obtain ⟨hzf, hnz⟩ := hval
    have hok : c.marshalOk = true := hzf
    exact ⟨.obj (encCancelFields c),
      by simp [encodeCancelPaymentSchema, hok],
      by simp [decodeCancelPaymentSchema, rtCancelFields c hnz]⟩
  · intro c hval
    obtain ⟨hzf, hnz⟩ := hval
    have hok : c.marshalOk = true := hzf
    exact ⟨.obj (encRefundFields c),
      by simp [encodeRefundPaymentSchema, hok],
      by simp [decodeRefundPaymentSchema, rtRefundFields c hnz]⟩
  · intro s
    exact ⟨_, rfl, rtResend s⟩
  · intro s
    exact ⟨_, rfl, rtAddWallet s⟩
  · intro s
    exact ⟨_, rfl, rtDeleteWallet s⟩

/-- Witness for C7 at a concrete create-payment schema exercising set and
unset `omitempty` fields, a customer, a product list and properties. -/
theorem claim_C7_witness :
    ValidCreatePayment cpsSample ∧
    (encodeCreatePaymentSchema cpsSample).bind decodeCreatePaymentSchema =
      .ok cpsSample := by
  refine ⟨by decide, ?_⟩
  obtain ⟨j, hj, hdec, -⟩ :=
    claim_C7_newrequest_roundtrip.1 cpsSample "u" [] (by decide)
  rw [hj]
  exact hdec

/-- C8: serializing any `PaymentResponse` and handing the bytes to the
callback parser restores the value exactly; bodies that are empty, fail
JSON parsing, or parse to a document of the wrong shape make the parser
fail. -/
theorem claim_C8_callback_roundtrip :
    (∀ r : PaymentResponse,
      GetPaymentCallbackFromBytes (.json (encodePaymentResponse r)) =
        .ok (some r)) ∧
    GetPaymentCallbackFromBytes .empty = .error () ∧
    GetPaymentCallbackFromBytes .malformed = .error () ∧
    (∀ s : String, GetPaymentCallbackFromBytes (.json (.str s)) = .error ()) ∧
    (∀ b : Bool, GetPaymentCallbackFromBytes (.json (.bool b)) = .error ()) := by
  refine ⟨fun r => ?_, rfl, rfl, fun s => rfl, fun b => rfl⟩
  simp [GetPaymentCallbackFromBytes, rtPaymentResponsePtr]

/-- C9 (amended): the two debug trace lines are gated by the debug flag and
the value returned by `Send` is independent of that flag; the error log
line of the non-2xx branch, however, is emitted unconditionally — with
debug off, every line `Send` emits is that error line. -/
theorem claim_C9_log_gating_amended (α : Type) (auth : String)
    (req : HttpRequest) (doReq : HttpRequest → DoResult)
    (v : Option (Jx → Except Unit α)) :
    (Send true auth req doReq v).1 = (Send false auth req doReq v).1 ∧
    (Send false auth req doReq v).2.all LogLine.isError = true := by
  rcases hdo : doReq (sendHeaders auth req) with _ | _ | ⟨status, body⟩
  · simp [Send, hdo]
  · simp [Send, hdo]
  · by_cases hs : (decide (status < 200) || decide (status > 299)) = true
    · rcases body with _ | _ | j
      · simp [Send, hdo, hs]
      · simp [Send, hdo, hs]
      · rcases hd : decodeErrorResponsePtr j with e | o
        · simp [Send, hdo, hs, hd]
        · rcases o with _ | er <;>
            simp [Send, hdo, hs, hd, LogLine.isError]
    · rcases v with _ | dec
      · simp [Send, hdo, hs]
      · rcases body with _ | _ | j
        · simp [Send, hdo, hs]
        · simp [Send, hdo, hs]
        · rcases hj : dec j with e | a <;> simp [Send, hdo, hs, hj]

/-- C9 counterexample to the claim as stated: with debug disabled, a
non-2xx response with a parseable error body still makes `Send` emit a log
line — the error trace is not gated by the debug flag. -/
theorem claim_C9_counterexample :
    (Send false "tok" reqSample (fun _ => .response 400 (.json errBodySample))
      (none : Option (Jx → Except Unit Unit))).2 ≠ [] := by
  decide

/-- C10: for a 2xx response with a zero-length body and a non-nil
destination, `Send` returns the JSON decode error — neither success nor
the empty-response sentinel; the empty-body check lives only on the
non-2xx branch. -/
theorem claim_C10_success_empty_body {α : Type} (debug : Bool) (auth : String)
    (req : HttpRequest) (status : Int) (dec : Jx → Except Unit α)
    (h200 : 200 ≤ status) (h299 : status ≤ 299) :
    (Send debug auth req (fun _ => .response status .empty) (some dec)).1 =
      .fail .unmarshalError ∧
    (.fail .unmarshalError : SendResult α) ≠ .fail ErrResponseIsEmpty ∧
    (∀ res : Option α, (.fail .unmarshalError : SendResult α) ≠ .ok res) := by
  have n1 : ¬ (status < 200) := not_lt.mpr h200
  have n2 : ¬ (status > 299) := not_lt.mpr h299
  refine ⟨by simp [Send, n1, n2], by simp [ErrResponseIsEmpty], fun res => by simp⟩

/-- Witness for C10 at status 200. -/
theorem claim_C10_witness :
    ((200 : Int) ≤ 200 ∧ (200 : Int) ≤ 299) ∧
    (Send false "tok" reqSample (fun _ => .response 200 .empty)
      (some fun j => asStr j "")).1 = .fail .unmarshalError :=
  ⟨⟨by decide, by decide⟩,
   (claim_C10_success_empty_body false "tok" reqSample 200 (fun j => asStr j "")
     (by decide) (by decide)).1⟩
